import Mathlib

/-!
# Verification of the guac BSP reader (`src/bsp_reader.rs`)

Shallow embedding of the byte-cursor / lump-decoder core of the repository.

Modelling conventions:
* The byte buffer is a `List Nat` (each entry a byte value `< 256`, as
  guaranteed by Rust's `Vec<u8>`).
* `i32` values are `Int`; reads reinterpret 4 little-endian bytes as a
  two's-complement signed 32-bit integer (`toI32`).
* `f32` values are represented by their 32-bit IEEE-754 bit pattern
  (a `Nat < 2^32`): the program never computes with floats, it only
  reinterprets 4 little-endian bytes, which is a bijection on bit patterns.
* Rust panics (index out of range, `str::from_utf8(..).unwrap()`) are
  modelled as `Except BSPError`, with the two error kinds kept distinct.
* Rust strings are modelled as their UTF-8 byte lists (NUL bytes retained,
  exactly as `str::from_utf8` retains them), together with the `utf8Valid`
  validity check that `str::from_utf8` performs.
* `x as usize` on an `i32` sign-extends and reinterprets: `i32AsUsize`.
* Rust `i32` division truncates toward zero: `Int.tdiv`.
-/

namespace Guac

/-- The two panic kinds of the reader: indexing past the buffer end, and
`str::from_utf8` failing on invalid UTF-8. -/
inductive BSPError where
  | outOfRange
  | invalidEncoding
  deriving DecidableEq

/-- The byte cursor: the full file contents and the current read position
(`marker`), from `struct BSPReader`. -/
structure BSPReader where
  data : List Nat
  marker : Nat
  deriving DecidableEq

/-- `struct Direntry { offset: i32, length: i32 }`. -/
structure Direntry where
  offset : Int
  length : Int
  deriving DecidableEq

/-- `struct Direntries`: the 17 named lump directory entries, in file order. -/
structure Direntries where
  entities : Direntry
  textures : Direntry
  planes : Direntry
  nodes : Direntry
  leafs : Direntry
  leaffaces : Direntry
  leafbrushes : Direntry
  models : Direntry
  brushes : Direntry
  brushsides : Direntry
  vertexes : Direntry
  meshverts : Direntry
  effects : Direntry
  faces : Direntry
  lightmaps : Direntry
  lightvols : Direntry
  visdata : Direntry
  deriving DecidableEq

/-- `struct Header { magic, version, direntries }`; `magic` is the byte list
of the 4-byte string. -/
structure Header where
  magic : List Nat
  version : Int
  direntries : Direntries
  deriving DecidableEq

/-- `struct Texture`; `name` is the raw 64-byte string contents. -/
structure Texture where
  name : List Nat
  flags : Int
  contents : Int
  deriving DecidableEq

/-- `struct Plane`; float fields carried as 32-bit patterns. -/
structure Plane where
  normal : Nat × Nat × Nat
  dist : Nat
  deriving DecidableEq

/-- `struct Node`. -/
structure Node where
  plane : Int
  children : Int × Int
  mins : Int × Int × Int
  maxs : Int × Int × Int
  deriving DecidableEq

/-- `struct Leaf`. -/
structure Leaf where
  cluster : Int
  area : Int
  mins : Int × Int × Int
  maxs : Int × Int × Int
  leafface : Int
  n_leaffaces : Int
  leafbrush : Int
  n_leafbrushes : Int
  deriving DecidableEq

/-- `struct Model`; float fields carried as 32-bit patterns. -/
structure Model where
  mins : Nat × Nat × Nat
  maxs : Nat × Nat × Nat
  face : Int
  n_faces : Int
  brush : Int
  n_brushes : Int
  deriving DecidableEq

/-- `struct Brush`. -/
structure Brush where
  brushside : Int
  n_brushsides : Int
  texture : Int
  deriving DecidableEq

/-- `struct Brushside`. -/
structure Brushside where
  plane : Int
  texture : Int
  deriving DecidableEq

/-- `struct Vertex`; float fields carried as 32-bit patterns, color as 4 bytes. -/
structure Vertex where
  position : Nat × Nat × Nat
  texcoord : (Nat × Nat) × (Nat × Nat)
  normal : Nat × Nat × Nat
  color : Nat × Nat × Nat × Nat
  deriving DecidableEq

/-- `struct Effect`; `name` is the raw 64-byte string contents. -/
structure Effect where
  name : List Nat
  brush : Int
  unknown : Int
  deriving DecidableEq

/-- `struct Face`; float fields carried as 32-bit patterns. -/
structure Face where
  texture : Int
  effect : Int
  f_type : Int
  vertex : Int
  n_vertexes : Int
  meshvert : Int
  n_meshverts : Int
  lm_index : Int
  lm_start : Int × Int
  lm_size : Int × Int
  lm_origin : Nat × Nat × Nat
  lm_vecs : (Nat × Nat × Nat) × (Nat × Nat × Nat)
  normal : Nat × Nat × Nat
  size : Int × Int
  deriving DecidableEq

/-- Combine four bytes little-endian into an unsigned 32-bit value. -/
def fromLEBytes4 (b0 b1 b2 b3 : Nat) : Nat :=
  b0 + 2 ^ 8 * b1 + 2 ^ 16 * b2 + 2 ^ 24 * b3

/-- Reinterpret an unsigned 32-bit value as a two's-complement signed one. -/
def toI32 (u : Nat) : Int :=
  if u < 2 ^ 31 then (u : Int) else (u : Int) - 2 ^ 32

/-- Rust's `x as usize` on an `i32`, on a 64-bit target: sign-extend and
reinterpret, i.e. reduce modulo `2^64`. -/
def i32AsUsize (x : Int) : Nat :=
  (x % (2 : Int) ^ 64).toNat

/-- The UTF-8 validity check performed by `str::from_utf8`
(RFC 3629: no overlong forms, no surrogates, max U+10FFFF). -/
def utf8Cont (b : Nat) : Bool :=
  decide (0x80 ≤ b) && decide (b ≤ 0xBF)

/-- Validity of a byte sequence as UTF-8, exactly as `str::from_utf8` checks it. -/
def utf8Valid : List Nat → Bool
  | [] => true
  | b0 :: t =>
    if b0 ≤ 0x7F then utf8Valid t
    else if b0 < 0xC2 then false
    else if b0 ≤ 0xDF then
      match t with
      | b1 :: t2 => utf8Cont b1 && utf8Valid t2
      | [] => false
    else if b0 ≤ 0xEF then
      match t with
      | b1 :: b2 :: t2 =>
        (if b0 = 0xE0 then decide (0xA0 ≤ b1) && decide (b1 ≤ 0xBF)
         else if b0 = 0xED then decide (0x80 ≤ b1) && decide (b1 ≤ 0x9F)
         else utf8Cont b1) && utf8Cont b2 && utf8Valid t2
      | _ => false
    else if b0 ≤ 0xF4 then
      match t with
      | b1 :: b2 :: b3 :: t2 =>
        (if b0 = 0xF0 then decide (0x90 ≤ b1) && decide (b1 ≤ 0xBF)
         else if b0 = 0xF4 then decide (0x80 ≤ b1) && decide (b1 ≤ 0x8F)
         else utf8Cont b1) && utf8Cont b2 && utf8Cont b3 && utf8Valid t2
      | _ => false
    else false

/-- `jump`: set the marker unconditionally (no bounds check). -/
def BSPReader.jump (r : BSPReader) (offset : Nat) : BSPReader :=
  { r with marker := offset }

/-- `read_ubyte`: the byte at the marker, advancing by 1; indexing past the
end of `data` panics (out of range). -/
def BSPReader.read_ubyte (r : BSPReader) : Except BSPError (Nat × BSPReader) :=
  if r.marker < r.data.length then
    .ok (r.data.getD r.marker 0, { r with marker := r.marker + 1 })
  else
    .error .outOfRange

/-- `read_int`: four `read_ubyte`s, reinterpreted as a signed little-endian
32-bit integer. -/
def BSPReader.read_int (r : BSPReader) : Except BSPError (Int × BSPReader) := do
  let (b0, r) ← r.read_ubyte
  let (b1, r) ← r.read_ubyte
  let (b2, r) ← r.read_ubyte
  let (b3, r) ← r.read_ubyte
  pure (toI32 (fromLEBytes4 b0 b1 b2 b3), r)

/-- `read_float`: four `read_ubyte`s, reinterpreted as a little-endian IEEE-754
single; modelled by its 32-bit pattern. -/
def BSPReader.read_float (r : BSPReader) : Except BSPError (Nat × BSPReader) := do
  let (b0, r) ← r.read_ubyte
  let (b1, r) ← r.read_ubyte
  let (b2, r) ← r.read_ubyte
  let (b3, r) ← r.read_ubyte
  pure (fromLEBytes4 b0 b1 b2 b3, r)

/-- `read_string(length)`: slice `data[marker..marker+length]` (panics when the
range leaves the buffer), validate as UTF-8 (`str::from_utf8(..).unwrap()`),
advance the marker by `length`. NUL bytes are retained. -/
def BSPReader.read_string (r : BSPReader) (length : Nat) :
    Except BSPError (List Nat × BSPReader) :=
  if r.marker + length ≤ r.data.length then
    let bytes := (r.data.drop r.marker).take length
    if utf8Valid bytes then
      .ok (bytes, { r with marker := r.marker + length })
    else
      .error .invalidEncoding
  else
    .error .outOfRange

/-- `read_direntry`: offset then length, each one `read_int`. -/
def BSPReader.read_direntry (r : BSPReader) : Except BSPError (Direntry × BSPReader) := do
  let (offset, r) ← r.read_int
  let (length, r) ← r.read_int
  pure ({ offset := offset, length := length }, r)

/-- `read_direntries`: the 17 direntries in the fixed file order. -/
def BSPReader.read_direntries (r : BSPReader) : Except BSPError (Direntries × BSPReader) := do
  let (entities, r) ← r.read_direntry
  let (textures, r) ← r.read_direntry
  let (planes, r) ← r.read_direntry
  let (nodes, r) ← r.read_direntry
  let (leafs, r) ← r.read_direntry
  let (leaffaces, r) ← r.read_direntry
  let (leafbrushes, r) ← r.read_direntry
  let (models, r) ← r.read_direntry
  let (brushes, r) ← r.read_direntry
  let (brushsides, r) ← r.read_direntry
  let (vertexes, r) ← r.read_direntry
  let (meshverts, r) ← r.read_direntry
  let (effects, r) ← r.read_direntry
  let (faces, r) ← r.read_direntry
  let (lightmaps, r) ← r.read_direntry
  let (lightvols, r) ← r.read_direntry
  let (visdata, r) ← r.read_direntry
  pure ({ entities, textures, planes, nodes, leafs, leaffaces, leafbrushes,
          models, brushes, brushsides, vertexes, meshverts, effects, faces,
          lightmaps, lightvols, visdata }, r)

/-- `read_header`: 4-byte magic, int32 version, 17 direntries. No validation
of magic or version. -/
def BSPReader.read_header (r : BSPReader) : Except BSPError (Header × BSPReader) := do
  let (magic, r) ← r.read_string 4
  let (version, r) ← r.read_int
  let (direntries, r) ← r.read_direntries
  pure ({ magic, version, direntries }, r)

/-- `read_entities`: jump to the entities offset (cast `as usize`), read the
lump as one string of `length as usize` bytes. -/
def BSPReader.read_entities (r : BSPReader) (ds : Direntries) :
    Except BSPError (List Nat × BSPReader) :=
  (r.jump (i32AsUsize ds.entities.offset)).read_string (i32AsUsize ds.entities.length)

/-- The loop of `read_list`: `n` applications of the record reader, results
in file order. -/
def readN {α : Type} (f : BSPReader → Except BSPError (α × BSPReader)) :
    Nat → BSPReader → Except BSPError (List α × BSPReader)
  | 0, r => .ok ([], r)
  | n + 1, r => do
    let (x, r) ← f r
    let (xs, r) ← readN f n r
    pure (x :: xs, r)

/-- `read_list(direntry, entry_size, read)`: jump to the lump offset, compute
`entries = direntry.length / entry_size` with Rust's truncating `i32`
division, run the record reader that many times (`for _ in 0..entries`
iterates `max entries 0` times, i.e. `Int.toNat`). -/
def BSPReader.read_list {α : Type} (r : BSPReader) (dir : Direntry) (entry_size : Int)
    (read : BSPReader → Except BSPError (α × BSPReader)) :
    Except BSPError (List α × BSPReader) :=
  readN read (dir.length.tdiv entry_size).toNat (r.jump (i32AsUsize dir.offset))

/-- The per-record closure of `read_textures`. -/
def readTextureRecord (r : BSPReader) : Except BSPError (Texture × BSPReader) := do
  let (name, r) ← r.read_string 64
  let (flags, r) ← r.read_int
  let (contents, r) ← r.read_int
  pure ({ name, flags, contents }, r)

/-- `read_textures`: entry size `64 + 4 + 4`. -/
def BSPReader.read_textures (r : BSPReader) (ds : Direntries) :
    Except BSPError (List Texture × BSPReader) :=
  r.read_list ds.textures (64 + 4 + 4) readTextureRecord

/-- The per-record closure of `read_planes`. -/
def readPlaneRecord (r : BSPReader) : Except BSPError (Plane × BSPReader) := do
  let (n0, r) ← r.read_float
  let (n1, r) ← r.read_float
  let (n2, r) ← r.read_float
  let (dist, r) ← r.read_float
  pure ({ normal := (n0, n1, n2), dist }, r)

/-- `read_planes`: entry size `3 * 4 + 4`. -/
def BSPReader.read_planes (r : BSPReader) (ds : Direntries) :
    Except BSPError (List Plane × BSPReader) :=
  r.read_list ds.planes (3 * 4 + 4) readPlaneRecord

/-- The per-record closure of `read_nodes`. -/
def readNodeRecord (r : BSPReader) : Except BSPError (Node × BSPReader) := do
  let (plane, r) ← r.read_int
  let (c0, r) ← r.read_int
  let (c1, r) ← r.read_int
  let (mi0, r) ← r.read_int
  let (mi1, r) ← r.read_int
  let (mi2, r) ← r.read_int
  let (ma0, r) ← r.read_int
  let (ma1, r) ← r.read_int
  let (ma2, r) ← r.read_int
  pure ({ plane, children := (c0, c1), mins := (mi0, mi1, mi2),
          maxs := (ma0, ma1, ma2) }, r)

/-- `read_nodes`: entry size `4 + 2 * 4 + 3 * 4 + 3 * 4`. -/
def BSPReader.read_nodes (r : BSPReader) (ds : Direntries) :
    Except BSPError (List Node × BSPReader) :=
  r.read_list ds.nodes (4 + 2 * 4 + 3 * 4 + 3 * 4) readNodeRecord

/-- The per-record closure of `read_leafs`. -/
def readLeafRecord (r : BSPReader) : Except BSPError (Leaf × BSPReader) := do
  let (cluster, r) ← r.read_int
  let (area, r) ← r.read_int
  let (mi0, r) ← r.read_int
  let (mi1, r) ← r.read_int
  let (mi2, r) ← r.read_int
  let (ma0, r) ← r.read_int
  let (ma1, r) ← r.read_int
  let (ma2, r) ← r.read_int
  let (leafface, r) ← r.read_int
  let (n_leaffaces, r) ← r.read_int
  let (leafbrush, r) ← r.read_int
  let (n_leafbrushes, r) ← r.read_int
  pure ({ cluster, area, mins := (mi0, mi1, mi2), maxs := (ma0, ma1, ma2),
          leafface, n_leaffaces, leafbrush, n_leafbrushes }, r)

/-- `read_leafs`: entry size `12 * 4`. -/
def BSPReader.read_leafs (r : BSPReader) (ds : Direntries) :
    Except BSPError (List Leaf × BSPReader) :=
  r.read_list ds.leafs (12 * 4) readLeafRecord

/-- `read_leaffaces`: bare int32 lump, entry size 4. -/
def BSPReader.read_leaffaces (r : BSPReader) (ds : Direntries) :
    Except BSPError (List Int × BSPReader) :=
  r.read_list ds.leaffaces 4 BSPReader.read_int

/-- `read_leafbrushes`: bare int32 lump, entry size 4. -/
def BSPReader.read_leafbrushes (r : BSPReader) (ds : Direntries) :
    Except BSPError (List Int × BSPReader) :=
  r.read_list ds.leafbrushes 4 BSPReader.read_int

/-- The per-record closure of `read_models`. -/
def readModelRecord (r : BSPReader) : Except BSPError (Model × BSPReader) := do
  let (mi0, r) ← r.read_float
  let (mi1, r) ← r.read_float
  let (mi2, r) ← r.read_float
  let (ma0, r) ← r.read_float
  let (ma1, r) ← r.read_float
  let (ma2, r) ← r.read_float
  let (face, r) ← r.read_int
  let (n_faces, r) ← r.read_int
  let (brush, r) ← r.read_int
  let (n_brushes, r) ← r.read_int
  pure ({ mins := (mi0, mi1, mi2), maxs := (ma0, ma1, ma2),
          face, n_faces, brush, n_brushes }, r)

/-- `read_models`: entry size `10 * 4`. -/
def BSPReader.read_models (r : BSPReader) (ds : Direntries) :
    Except BSPError (List Model × BSPReader) :=
  r.read_list ds.models (10 * 4) readModelRecord

/-- The per-record closure of `read_brushes`. -/
def readBrushRecord (r : BSPReader) : Except BSPError (Brush × BSPReader) := do
  let (brushside, r) ← r.read_int
  let (n_brushsides, r) ← r.read_int
  let (texture, r) ← r.read_int
  pure ({ brushside, n_brushsides, texture }, r)

/-- `read_brushes`: entry size `3 * 4`. -/
def BSPReader.read_brushes (r : BSPReader) (ds : Direntries) :
    Except BSPError (List Brush × BSPReader) :=
  r.read_list ds.brushes (3 * 4) readBrushRecord

/-- The per-record closure of `read_brushsides`. -/
def readBrushsideRecord (r : BSPReader) : Except BSPError (Brushside × BSPReader) := do
  let (plane, r) ← r.read_int
  let (texture, r) ← r.read_int
  pure ({ plane, texture }, r)

/-- `read_brushsides`: entry size `2 * 4`. -/
def BSPReader.read_brushsides (r : BSPReader) (ds : Direntries) :
    Except BSPError (List Brushside × BSPReader) :=
  r.read_list ds.brushsides (2 * 4) readBrushsideRecord

/-- The per-record closure of `read_vertexes`: 10 floats and 4 color bytes,
44 bytes consumed in total. -/
def readVertexRecord (r : BSPReader) : Except BSPError (Vertex × BSPReader) := do
  let (p0, r) ← r.read_float
  let (p1, r) ← r.read_float
  let (p2, r) ← r.read_float
  let (t00, r) ← r.read_float
  let (t01, r) ← r.read_float
  let (t10, r) ← r.read_float
  let (t11, r) ← r.read_float
  let (n0, r) ← r.read_float
  let (n1, r) ← r.read_float
  let (n2, r) ← r.read_float
  let (c0, r) ← r.read_ubyte
  let (c1, r) ← r.read_ubyte
  let (c2, r) ← r.read_ubyte
  let (c3, r) ← r.read_ubyte
  pure ({ position := (p0, p1, p2), texcoord := ((t00, t01), (t10, t11)),
          normal := (n0, n1, n2), color := (c0, c1, c2, c3) }, r)

/-- `read_vertexes`: the source passes entry size `14 * 4` (= 56) although
the record closure consumes 44 bytes. -/
def BSPReader.read_vertexes (r : BSPReader) (ds : Direntries) :
    Except BSPError (List Vertex × BSPReader) :=
  r.read_list ds.vertexes (14 * 4) readVertexRecord

/-- `read_meshverts`: bare int32 lump, entry size 4. -/
def BSPReader.read_meshverts (r : BSPReader) (ds : Direntries) :
    Except BSPError (List Int × BSPReader) :=
  r.read_list ds.meshverts 4 BSPReader.read_int

/-- The per-record closure of `read_effects`. -/
def readEffectRecord (r : BSPReader) : Except BSPError (Effect × BSPReader) := do
  let (name, r) ← r.read_string 64
  let (brush, r) ← r.read_int
  let (unknown, r) ← r.read_int
  pure ({ name, brush, unknown }, r)

/-- `read_effects`: entry size `64 + 2 * 4`. -/
def BSPReader.read_effects (r : BSPReader) (ds : Direntries) :
    Except BSPError (List Effect × BSPReader) :=
  r.read_list ds.effects (64 + 2 * 4) readEffectRecord

/-- The per-record closure of `read_faces`. -/
def readFaceRecord (r : BSPReader) : Except BSPError (Face × BSPReader) := do
  let (texture, r) ← r.read_int
  let (effect, r) ← r.read_int
  let (f_type, r) ← r.read_int
  let (vertex, r) ← r.read_int
  let (n_vertexes, r) ← r.read_int
  let (meshvert, r) ← r.read_int
  let (n_meshverts, r) ← r.read_int
  let (lm_index, r) ← r.read_int
  let (ls0, r) ← r.read_int
  let (ls1, r) ← r.read_int
  let (lz0, r) ← r.read_int
  let (lz1, r) ← r.read_int
  let (lo0, r) ← r.read_float
  let (lo1, r) ← r.read_float
  let (lo2, r) ← r.read_float
  let (lv00, r) ← r.read_float
  let (lv01, r) ← r.read_float
  let (lv02, r) ← r.read_float
  let (lv10, r) ← r.read_float
  let (lv11, r) ← r.read_float
  let (lv12, r) ← r.read_float
  let (n0, r) ← r.read_float
  let (n1, r) ← r.read_float
  let (n2, r) ← r.read_float
  let (s0, r) ← r.read_int
  let (s1, r) ← r.read_int
  pure ({ texture, effect, f_type, vertex, n_vertexes, meshvert, n_meshverts,
          lm_index, lm_start := (ls0, ls1), lm_size := (lz0, lz1),
          lm_origin := (lo0, lo1, lo2), lm_vecs := ((lv00, lv01, lv02), (lv10, lv11, lv12)),
          normal := (n0, n1, n2), size := (s0, s1) }, r)

/-- `read_faces`: entry size `26 * 4`. -/
def BSPReader.read_faces (r : BSPReader) (ds : Direntries) :
    Except BSPError (List Face × BSPReader) :=
  r.read_list ds.faces (26 * 4) readFaceRecord

/-! ## Pure views of the buffer -/

/-- The byte of `data` at absolute position `m` (positions are always in
bounds where this is used). -/
def byteAt (data : List Nat) (m : Nat) : Nat := data.getD m 0

/-- The unsigned little-endian 32-bit value at absolute position `m`. -/
def u32At (data : List Nat) (m : Nat) : Nat :=
  fromLEBytes4 (byteAt data m) (byteAt data (m + 1)) (byteAt data (m + 2)) (byteAt data (m + 3))

/-- The signed little-endian 32-bit value at absolute position `m`. -/
def i32At (data : List Nat) (m : Nat) : Int := toI32 (u32At data m)

/-! ## Reduction lemmas for the primitive reads -/

theorem ok_bind {α β : Type} (a : α) (f : α → Except BSPError β) :
    (Except.ok a >>= f) = f a := rfl

theorem error_bind {α β : Type} (e : BSPError) (f : α → Except BSPError β) :
    ((Except.error e : Except BSPError α) >>= f) = Except.error e := rfl

theorem pure_eq_ok {α : Type} (a : α) : (pure a : Except BSPError α) = Except.ok a := rfl

theorem read_ubyte_eq (r : BSPReader) :
    r.read_ubyte = if r.marker < r.data.length
      then .ok (byteAt r.data r.marker, ⟨r.data, r.marker + 1⟩)
      else .error .outOfRange := rfl

theorem read_float_ok (r : BSPReader) (h : r.marker + 4 ≤ r.data.length) :
    r.read_float = .ok (u32At r.data r.marker, ⟨r.data, r.marker + 4⟩) := by
  obtain ⟨data, m⟩ := r
  simp only at h
  have h0 : m < data.length := by omega
  have h1 : m + 1 < data.length := by omega
  have h2 : m + 1 + 1 < data.length := by omega
  have h3 : m + 1 + 1 + 1 < data.length := by omega
  simp only [BSPReader.read_float, read_ubyte_eq, h0, h1, h2, h3, if_true, ok_bind,
    pure_eq_ok, u32At, byteAt]

theorem read_int_ok (r : BSPReader) (h : r.marker + 4 ≤ r.data.length) :
    r.read_int = .ok (i32At r.data r.marker, ⟨r.data, r.marker + 4⟩) := by
  obtain ⟨data, m⟩ := r
  simp only at h
  have h0 : m < data.length := by omega
  have h1 : m + 1 < data.length := by omega
  have h2 : m + 1 + 1 < data.length := by omega
  have h3 : m + 1 + 1 + 1 < data.length := by omega
  simp only [BSPReader.read_int, read_ubyte_eq, h0, h1, h2, h3, if_true, ok_bind,
    pure_eq_ok, i32At, u32At, byteAt]

theorem read_string_eq (r : BSPReader) (n : Nat) :
    r.read_string n = if r.marker + n ≤ r.data.length then
        (if utf8Valid ((r.data.drop r.marker).take n) then
          .ok ((r.data.drop r.marker).take n, ⟨r.data, r.marker + n⟩)
        else .error .invalidEncoding)
      else .error .outOfRange := rfl

theorem read_string_ok (r : BSPReader) (n : Nat) (h : r.marker + n ≤ r.data.length)
    (hv : utf8Valid ((r.data.drop r.marker).take n)) :
    r.read_string n = .ok ((r.data.drop r.marker).take n, ⟨r.data, r.marker + n⟩) := by
  simp only [read_string_eq, h, hv, if_true]

theorem read_direntry_ok (r : BSPReader) (h : r.marker + 8 ≤ r.data.length) :
    r.read_direntry =
      .ok (⟨i32At r.data r.marker, i32At r.data (r.marker + 4)⟩, ⟨r.data, r.marker + 8⟩) := by
  obtain ⟨data, m⟩ := r
  simp only at h
  unfold BSPReader.read_direntry
  rw [read_int_ok ⟨data, m⟩ (show m + 4 ≤ data.length by omega), ok_bind]
  dsimp only
  rw [read_int_ok ⟨data, m + 4⟩ (show m + 4 + 4 ≤ data.length by omega), ok_bind]
  dsimp only
  rfl

/-! ## Per-record views and flattening lemmas -/

/-- The `Plane` record laid out at absolute position `m`. -/
def planeAt (data : List Nat) (m : Nat) : Plane :=
  { normal := (u32At data m, u32At data (m + 4), u32At data (m + 8)),
    dist := u32At data (m + 12) }

theorem readPlaneRecord_ok (data : List Nat) (m : Nat) (h : m + 16 ≤ data.length) :
    readPlaneRecord ⟨data, m⟩ = .ok (planeAt data m, ⟨data, m + 16⟩) := by
  unfold readPlaneRecord
  rw [read_float_ok ⟨data, m⟩ (show m + 4 ≤ data.length by omega), ok_bind]
  dsimp only
  rw [read_float_ok ⟨data, m + 4⟩ (show m + 4 + 4 ≤ data.length by omega), ok_bind]
  dsimp only
  rw [read_float_ok ⟨data, m + 4 + 4⟩ (show m + 4 + 4 + 4 ≤ data.length by omega), ok_bind]
  dsimp only
  rw [read_float_ok ⟨data, m + 4 + 4 + 4⟩ (show m + 4 + 4 + 4 + 4 ≤ data.length by omega), ok_bind]
  dsimp only
  rfl

theorem read_ubyte_ok (r : BSPReader) (h : r.marker < r.data.length) :
    r.read_ubyte = .ok (byteAt r.data r.marker, ⟨r.data, r.marker + 1⟩) := by
  simp only [read_ubyte_eq, h, if_true]

/-- The `Texture` record laid out at absolute position `m`. -/
def textureAt (data : List Nat) (m : Nat) : Texture :=
  { name := (data.drop m).take 64, flags := i32At data (m + 64), contents := i32At data (m + 68) }

theorem readTextureRecord_ok (data : List Nat) (m : Nat) (h : m + 72 ≤ data.length)
    (hv : utf8Valid ((data.drop m).take 64)) :
    readTextureRecord ⟨data, m⟩ = .ok (textureAt data m, ⟨data, m + 72⟩) := by
  unfold readTextureRecord
  rw [read_string_ok ⟨data, m⟩ 64 (show m + 64 ≤ data.length by omega) hv, ok_bind]
  dsimp only
  rw [read_int_ok ⟨data, m + 64⟩ (show m + 64 + 4 ≤ data.length by omega), ok_bind]
  dsimp only
  rw [read_int_ok ⟨data, m + 64 + 4⟩ (show m + 64 + 4 + 4 ≤ data.length by omega), ok_bind]
  dsimp only
  rfl

/-- The `Node` record laid out at absolute position `m`. -/
def nodeAt (data : List Nat) (m : Nat) : Node :=
  { plane := i32At data m, children := (i32At data (m + 4), i32At data (m + 8)),
    mins := (i32At data (m + 12), i32At data (m + 16), i32At data (m + 20)),
    maxs := (i32At data (m + 24), i32At data (m + 28), i32At data (m + 32)) }

theorem readNodeRecord_ok (data : List Nat) (m : Nat) (h : m + 36 ≤ data.length) :
    readNodeRecord ⟨data, m⟩ = .ok (nodeAt data m, ⟨data, m + 36⟩) := by
  unfold readNodeRecord
  rw [read_int_ok ⟨data, m⟩ (show m + 4 ≤ data.length by omega), ok_bind]
  dsimp only
  rw [read_int_ok ⟨data, m + 4⟩ (show m + 4 + 4 ≤ data.length by omega), ok_bind]
  dsimp only
  rw [read_int_ok ⟨data, m + 4 + 4⟩ (show m + 4 + 4 + 4 ≤ data.length by omega), ok_bind]
  dsimp only
  rw [read_int_ok ⟨data, m + 4 + 4 + 4⟩ (show m + 4 + 4 + 4 + 4 ≤ data.length by omega), ok_bind]
  dsimp only
  rw [read_int_ok ⟨data, m + 4 + 4 + 4 + 4⟩ (show m + 4 + 4 + 4 + 4 + 4 ≤ data.length by omega), ok_bind]
  dsimp only
  rw [read_int_ok ⟨data, m + 4 + 4 + 4 + 4 + 4⟩ (show m + 4 + 4 + 4 + 4 + 4 + 4 ≤ data.length by omega), ok_bind]
  dsimp only
  rw [read_int_ok ⟨data, m + 4 + 4 + 4 + 4 + 4 + 4⟩ (show m + 4 + 4 + 4 + 4 + 4 + 4 + 4 ≤ data.length by omega), ok_bind]
  dsimp only
  rw [read_int_ok ⟨data, m + 4 + 4 + 4 + 4 + 4 + 4 + 4⟩ (show m + 4 + 4 + 4 + 4 + 4 + 4 + 4 + 4 ≤ data.length by omega), ok_bind]
  dsimp only
  rw [read_int_ok ⟨data, m + 4 + 4 + 4 + 4 + 4 + 4 + 4 + 4⟩ (show m + 4 + 4 + 4 + 4 + 4 + 4 + 4 + 4 + 4 ≤ data.length by omega), ok_bind]
  dsimp only
  rfl

/-- The `Leaf` record laid out at absolute position `m`. -/
def leafAt (data : List Nat) (m : Nat) : Leaf :=
  { cluster := i32At data m, area := i32At data (m + 4),
    mins := (i32At data (m + 8), i32At data (m + 12), i32At data (m + 16)),
    maxs := (i32At data (m + 20), i32At data (m + 24), i32At data (m + 28)),
    leafface := i32At data (m + 32), n_leaffaces := i32At data (m + 36),
    leafbrush := i32At data (m + 40), n_leafbrushes := i32At data (m + 44) }

theorem readLeafRecord_ok (data : List Nat) (m : Nat) (h : m + 48 ≤ data.length) :
    readLeafRecord ⟨data, m⟩ = .ok (leafAt data m, ⟨data, m + 48⟩) := by
  unfold readLeafRecord
  rw [read_int_ok ⟨data, m⟩ (show m + 4 ≤ data.length by omega), ok_bind]
  dsimp only
  rw [read_int_ok ⟨data, m + 4⟩ (show m + 4 + 4 ≤ data.length by omega), ok_bind]
  dsimp only
  rw [read_int_ok ⟨data, m + 4 + 4⟩ (show m + 4 + 4 + 4 ≤ data.length by omega), ok_bind]
  dsimp only
  rw [read_int_ok ⟨data, m + 4 + 4 + 4⟩ (show m + 4 + 4 + 4 + 4 ≤ data.length by omega), ok_bind]
  dsimp only
  rw [read_int_ok ⟨data, m + 4 + 4 + 4 + 4⟩ (show m + 4 + 4 + 4 + 4 + 4 ≤ data.length by omega), ok_bind]
  dsimp only
  rw [read_int_ok ⟨data, m + 4 + 4 + 4 + 4 + 4⟩ (show m + 4 + 4 + 4 + 4 + 4 + 4 ≤ data.length by omega), ok_bind]
  dsimp only
  rw [read_int_ok ⟨data, m + 4 + 4 + 4 + 4 + 4 + 4⟩ (show m + 4 + 4 + 4 + 4 + 4 + 4 + 4 ≤ data.length by omega), ok_bind]
  dsimp only
  rw [read_int_ok ⟨data, m + 4 + 4 + 4 + 4 + 4 + 4 + 4⟩ (show m + 4 + 4 + 4 + 4 + 4 + 4 + 4 + 4 ≤ data.length by omega), ok_bind]
  dsimp only
  rw [read_int_ok ⟨data, m + 4 + 4 + 4 + 4 + 4 + 4 + 4 + 4⟩ (show m + 4 + 4 + 4 + 4 + 4 + 4 + 4 + 4 + 4 ≤ data.length by omega), ok_bind]
  dsimp only
  rw [read_int_ok ⟨data, m + 4 + 4 + 4 + 4 + 4 + 4 + 4 + 4 + 4⟩ (show m + 4 + 4 + 4 + 4 + 4 + 4 + 4 + 4 + 4 + 4 ≤ data.length by omega), ok_bind]
  dsimp only
  rw [read_int_ok ⟨data, m + 4 + 4 + 4 + 4 + 4 + 4 + 4 + 4 + 4 + 4⟩ (show m + 4 + 4 + 4 + 4 + 4 + 4 + 4 + 4 + 4 + 4 + 4 ≤ data.length by omega), ok_bind]
  dsimp only
  rw [read_int_ok ⟨data, m + 4 + 4 + 4 + 4 + 4 + 4 + 4 + 4 + 4 + 4 + 4⟩ (show m + 4 + 4 + 4 + 4 + 4 + 4 + 4 + 4 + 4 + 4 + 4 + 4 ≤ data.length by omega), ok_bind]
  dsimp only
  rfl

/-- The `Model` record laid out at absolute position `m`. -/
def modelAt (data : List Nat) (m : Nat) : Model :=
  { mins := (u32At data m, u32At data (m + 4), u32At data (m + 8)),
    maxs := (u32At data (m + 12), u32At data (m + 16), u32At data (m + 20)),
    face := i32At data (m + 24), n_faces := i32At data (m + 28),
    brush := i32At data (m + 32), n_brushes := i32At data (m + 36) }

theorem readModelRecord_ok (data : List Nat) (m : Nat) (h : m + 40 ≤ data.length) :
    readModelRecord ⟨data, m⟩ = .ok (modelAt data m, ⟨data, m + 40⟩) := by
  unfold readModelRecord
  rw [read_float_ok ⟨data, m⟩ (show m + 4 ≤ data.length by omega), ok_bind]
  dsimp only
  rw [read_float_ok ⟨data, m + 4⟩ (show m + 4 + 4 ≤ data.length by omega), ok_bind]
  dsimp only
  rw [read_float_ok ⟨data, m + 4 + 4⟩ (show m + 4 + 4 + 4 ≤ data.length by omega), ok_bind]
  dsimp only
  rw [read_float_ok ⟨data, m + 4 + 4 + 4⟩ (show m + 4 + 4 + 4 + 4 ≤ data.length by omega), ok_bind]
  dsimp only
  rw [read_float_ok ⟨data, m + 4 + 4 + 4 + 4⟩ (show m + 4 + 4 + 4 + 4 + 4 ≤ data.length by omega), ok_bind]
  dsimp only
  rw [read_float_ok ⟨data, m + 4 + 4 + 4 + 4 + 4⟩ (show m + 4 + 4 + 4 + 4 + 4 + 4 ≤ data.length by omega), ok_bind]
  dsimp only
  rw [read_int_ok ⟨data, m + 4 + 4 + 4 + 4 + 4 + 4⟩ (show m + 4 + 4 + 4 + 4 + 4 + 4 + 4 ≤ data.length by omega), ok_bind]
  dsimp only
  rw [read_int_ok ⟨data, m + 4 + 4 + 4 + 4 + 4 + 4 + 4⟩ (show m + 4 + 4 + 4 + 4 + 4 + 4 + 4 + 4 ≤ data.length by omega), ok_bind]
  dsimp only
  rw [read_int_ok ⟨data, m + 4 + 4 + 4 + 4 + 4 + 4 + 4 + 4⟩ (show m + 4 + 4 + 4 + 4 + 4 + 4 + 4 + 4 + 4 ≤ data.length by omega), ok_bind]
  dsimp only
  rw [read_int_ok ⟨data, m + 4 + 4 + 4 + 4 + 4 + 4 + 4 + 4 + 4⟩ (show m + 4 + 4 + 4 + 4 + 4 + 4 + 4 + 4 + 4 + 4 ≤ data.length by omega), ok_bind]
  dsimp only
  rfl

/-- The `Brush` record laid out at absolute position `m`. -/
def brushAt (data : List Nat) (m : Nat) : Brush :=
  { brushside := i32At data m, n_brushsides := i32At data (m + 4), texture := i32At data (m + 8) }

theorem readBrushRecord_ok (data : List Nat) (m : Nat) (h : m + 12 ≤ data.length) :
    readBrushRecord ⟨data, m⟩ = .ok (brushAt data m, ⟨data, m + 12⟩) := by
  unfold readBrushRecord
  rw [read_int_ok ⟨data, m⟩ (show m + 4 ≤ data.length by omega), ok_bind]
  dsimp only
  rw [read_int_ok ⟨data, m + 4⟩ (show m + 4 + 4 ≤ data.length by omega), ok_bind]
  dsimp only
  rw [read_int_ok ⟨data, m + 4 + 4⟩ (show m + 4 + 4 + 4 ≤ data.length by omega), ok_bind]
  dsimp only
  rfl

/-- The `Brushside` record laid out at absolute position `m`. -/
def brushsideAt (data : List Nat) (m : Nat) : Brushside :=
  { plane := i32At data m, texture := i32At data (m + 4) }

theorem readBrushsideRecord_ok (data : List Nat) (m : Nat) (h : m + 8 ≤ data.length) :
    readBrushsideRecord ⟨data, m⟩ = .ok (brushsideAt data m, ⟨data, m + 8⟩) := by
  unfold readBrushsideRecord
  rw [read_int_ok ⟨data, m⟩ (show m + 4 ≤ data.length by omega), ok_bind]
  dsimp only
  rw [read_int_ok ⟨data, m + 4⟩ (show m + 4 + 4 ≤ data.length by omega), ok_bind]
  dsimp only
  rfl

/-- The `Vertex` record laid out at absolute position `m`: 44 consecutive
bytes (10 floats, then 4 color bytes). -/
def vertexAt (data : List Nat) (m : Nat) : Vertex :=
  { position := (u32At data m, u32At data (m + 4), u32At data (m + 8)),
    texcoord := ((u32At data (m + 12), u32At data (m + 16)),
                 (u32At data (m + 20), u32At data (m + 24))),
    normal := (u32At data (m + 28), u32At data (m + 32), u32At data (m + 36)),
    color := (byteAt data (m + 40), byteAt data (m + 41), byteAt data (m + 42),
              byteAt data (m + 43)) }

theorem readVertexRecord_ok (data : List Nat) (m : Nat) (h : m + 44 ≤ data.length) :
    readVertexRecord ⟨data, m⟩ = .ok (vertexAt data m, ⟨data, m + 44⟩) := by
  unfold readVertexRecord
  rw [read_float_ok ⟨data, m⟩ (show m + 4 ≤ data.length by omega), ok_bind]
  dsimp only
  rw [read_float_ok ⟨data, m + 4⟩ (show m + 4 + 4 ≤ data.length by omega), ok_bind]
  dsimp only
  rw [read_float_ok ⟨data, m + 4 + 4⟩ (show m + 4 + 4 + 4 ≤ data.length by omega), ok_bind]
  dsimp only
  rw [read_float_ok ⟨data, m + 4 + 4 + 4⟩ (show m + 4 + 4 + 4 + 4 ≤ data.length by omega), ok_bind]
  dsimp only
  rw [read_float_ok ⟨data, m + 4 + 4 + 4 + 4⟩ (show m + 4 + 4 + 4 + 4 + 4 ≤ data.length by omega), ok_bind]
  dsimp only
  rw [read_float_ok ⟨data, m + 4 + 4 + 4 + 4 + 4⟩ (show m + 4 + 4 + 4 + 4 + 4 + 4 ≤ data.length by omega), ok_bind]
  dsimp only
  rw [read_float_ok ⟨data, m + 4 + 4 + 4 + 4 + 4 + 4⟩ (show m + 4 + 4 + 4 + 4 + 4 + 4 + 4 ≤ data.length by omega), ok_bind]
  dsimp only
  rw [read_float_ok ⟨data, m + 4 + 4 + 4 + 4 + 4 + 4 + 4⟩ (show m + 4 + 4 + 4 + 4 + 4 + 4 + 4 + 4 ≤ data.length by omega), ok_bind]
  dsimp only
  rw [read_float_ok ⟨data, m + 4 + 4 + 4 + 4 + 4 + 4 + 4 + 4⟩ (show m + 4 + 4 + 4 + 4 + 4 + 4 + 4 + 4 + 4 ≤ data.length by omega), ok_bind]
  dsimp only
  rw [read_float_ok ⟨data, m + 4 + 4 + 4 + 4 + 4 + 4 + 4 + 4 + 4⟩ (show m + 4 + 4 + 4 + 4 + 4 + 4 + 4 + 4 + 4 + 4 ≤ data.length by omega), ok_bind]
  dsimp only
  rw [read_ubyte_ok ⟨data, m + 4 + 4 + 4 + 4 + 4 + 4 + 4 + 4 + 4 + 4⟩ (show m + 4 + 4 + 4 + 4 + 4 + 4 + 4 + 4 + 4 + 4 < data.length by omega), ok_bind]
  dsimp only
  rw [read_ubyte_ok ⟨data, m + 4 + 4 + 4 + 4 + 4 + 4 + 4 + 4 + 4 + 4 + 1⟩ (show m + 4 + 4 + 4 + 4 + 4 + 4 + 4 + 4 + 4 + 4 + 1 < data.length by omega), ok_bind]
  dsimp only
  rw [read_ubyte_ok ⟨data, m + 4 + 4 + 4 + 4 + 4 + 4 + 4 + 4 + 4 + 4 + 1 + 1⟩ (show m + 4 + 4 + 4 + 4 + 4 + 4 + 4 + 4 + 4 + 4 + 1 + 1 < data.length by omega), ok_bind]
  dsimp only
  rw [read_ubyte_ok ⟨data, m + 4 + 4 + 4 + 4 + 4 + 4 + 4 + 4 + 4 + 4 + 1 + 1 + 1⟩ (show m + 4 + 4 + 4 + 4 + 4 + 4 + 4 + 4 + 4 + 4 + 1 + 1 + 1 < data.length by omega), ok_bind]
  dsimp only
  rfl

/-- The `Effect` record laid out at absolute position `m`. -/
def effectAt (data : List Nat) (m : Nat) : Effect :=
  { name := (data.drop m).take 64, brush := i32At data (m + 64), unknown := i32At data (m + 68) }

theorem readEffectRecord_ok (data : List Nat) (m : Nat) (h : m + 72 ≤ data.length)
    (hv : utf8Valid ((data.drop m).take 64)) :
    readEffectRecord ⟨data, m⟩ = .ok (effectAt data m, ⟨data, m + 72⟩) := by
  unfold readEffectRecord
  rw [read_string_ok ⟨data, m⟩ 64 (show m + 64 ≤ data.length by omega) hv, ok_bind]
  dsimp only
  rw [read_int_ok ⟨data, m + 64⟩ (show m + 64 + 4 ≤ data.length by omega), ok_bind]
  dsimp only
  rw [read_int_ok ⟨data, m + 64 + 4⟩ (show m + 64 + 4 + 4 ≤ data.length by omega), ok_bind]
  dsimp only
  rfl

/-- The `Face` record laid out at absolute position `m`. -/
def faceAt (data : List Nat) (m : Nat) : Face :=
  { texture := i32At data m, effect := i32At data (m + 4), f_type := i32At data (m + 8),
    vertex := i32At data (m + 12), n_vertexes := i32At data (m + 16),
    meshvert := i32At data (m + 20), n_meshverts := i32At data (m + 24),
    lm_index := i32At data (m + 28),
    lm_start := (i32At data (m + 32), i32At data (m + 36)),
    lm_size := (i32At data (m + 40), i32At data (m + 44)),
    lm_origin := (u32At data (m + 48), u32At data (m + 52), u32At data (m + 56)),
    lm_vecs := ((u32At data (m + 60), u32At data (m + 64), u32At data (m + 68)),
                (u32At data (m + 72), u32At data (m + 76), u32At data (m + 80))),
    normal := (u32At data (m + 84), u32At data (m + 88), u32At data (m + 92)),
    size := (i32At data (m + 96), i32At data (m + 100)) }

theorem readFaceRecord_ok (data : List Nat) (m : Nat) (h : m + 104 ≤ data.length) :
    readFaceRecord ⟨data, m⟩ = .ok (faceAt data m, ⟨data, m + 104⟩) := by
  unfold readFaceRecord
  rw [read_int_ok ⟨data, m⟩ (show m + 4 ≤ data.length by omega), ok_bind]
  dsimp only
  rw [read_int_ok ⟨data, m + 4⟩ (show m + 4 + 4 ≤ data.length by omega), ok_bind]
  dsimp only
  rw [read_int_ok ⟨data, m + 4 + 4⟩ (show m + 4 + 4 + 4 ≤ data.length by omega), ok_bind]
  dsimp only
  rw [read_int_ok ⟨data, m + 4 + 4 + 4⟩ (show m + 4 + 4 + 4 + 4 ≤ data.length by omega), ok_bind]
  dsimp only
  rw [read_int_ok ⟨data, m + 4 + 4 + 4 + 4⟩ (show m + 4 + 4 + 4 + 4 + 4 ≤ data.length by omega), ok_bind]
  dsimp only
  rw [read_int_ok ⟨data, m + 4 + 4 + 4 + 4 + 4⟩ (show m + 4 + 4 + 4 + 4 + 4 + 4 ≤ data.length by omega), ok_bind]
  dsimp only
  rw [read_int_ok ⟨data, m + 4 + 4 + 4 + 4 + 4 + 4⟩ (show m + 4 + 4 + 4 + 4 + 4 + 4 + 4 ≤ data.length by omega), ok_bind]
  dsimp only
  rw [read_int_ok ⟨data, m + 4 + 4 + 4 + 4 + 4 + 4 + 4⟩ (show m + 4 + 4 + 4 + 4 + 4 + 4 + 4 + 4 ≤ data.length by omega), ok_bind]
  dsimp only
  rw [read_int_ok ⟨data, m + 4 + 4 + 4 + 4 + 4 + 4 + 4 + 4⟩ (show m + 4 + 4 + 4 + 4 + 4 + 4 + 4 + 4 + 4 ≤ data.length by omega), ok_bind]
  dsimp only
  rw [read_int_ok ⟨data, m + 4 + 4 + 4 + 4 + 4 + 4 + 4 + 4 + 4⟩ (show m + 4 + 4 + 4 + 4 + 4 + 4 + 4 + 4 + 4 + 4 ≤ data.length by omega), ok_bind]
  dsimp only
  rw [read_int_ok ⟨data, m + 4 + 4 + 4 + 4 + 4 + 4 + 4 + 4 + 4 + 4⟩ (show m + 4 + 4 + 4 + 4 + 4 + 4 + 4 + 4 + 4 + 4 + 4 ≤ data.length by omega), ok_bind]
  dsimp only
  rw [read_int_ok ⟨data, m + 4 + 4 + 4 + 4 + 4 + 4 + 4 + 4 + 4 + 4 + 4⟩ (show m + 4 + 4 + 4 + 4 + 4 + 4 + 4 + 4 + 4 + 4 + 4 + 4 ≤ data.length by omega), ok_bind]
  dsimp only
  rw [read_float_ok ⟨data, m + 4 + 4 + 4 + 4 + 4 + 4 + 4 + 4 + 4 + 4 + 4 + 4⟩ (show m + 4 + 4 + 4 + 4 + 4 + 4 + 4 + 4 + 4 + 4 + 4 + 4 + 4 ≤ data.length by omega), ok_bind]
  dsimp only
  rw [read_float_ok ⟨data, m + 4 + 4 + 4 + 4 + 4 + 4 + 4 + 4 + 4 + 4 + 4 + 4 + 4⟩ (show m + 4 + 4 + 4 + 4 + 4 + 4 + 4 + 4 + 4 + 4 + 4 + 4 + 4 + 4 ≤ data.length by omega), ok_bind]
  dsimp only
  rw [read_float_ok ⟨data, m + 4 + 4 + 4 + 4 + 4 + 4 + 4 + 4 + 4 + 4 + 4 + 4 + 4 + 4⟩ (show m + 4 + 4 + 4 + 4 + 4 + 4 + 4 + 4 + 4 + 4 + 4 + 4 + 4 + 4 + 4 ≤ data.length by omega), ok_bind]
  dsimp only
  rw [read_float_ok ⟨data, m + 4 + 4 + 4 + 4 + 4 + 4 + 4 + 4 + 4 + 4 + 4 + 4 + 4 + 4 + 4⟩ (show m + 4 + 4 + 4 + 4 + 4 + 4 + 4 + 4 + 4 + 4 + 4 + 4 + 4 + 4 + 4 + 4 ≤ data.length by omega), ok_bind]
  dsimp only
  rw [read_float_ok ⟨data, m + 4 + 4 + 4 + 4 + 4 + 4 + 4 + 4 + 4 + 4 + 4 + 4 + 4 + 4 + 4 + 4⟩ (show m + 4 + 4 + 4 + 4 + 4 + 4 + 4 + 4 + 4 + 4 + 4 + 4 + 4 + 4 + 4 + 4 + 4 ≤ data.length by omega), ok_bind]
  dsimp only
  rw [read_float_ok ⟨data, m + 4 + 4 + 4 + 4 + 4 + 4 + 4 + 4 + 4 + 4 + 4 + 4 + 4 + 4 + 4 + 4 + 4⟩ (show m + 4 + 4 + 4 + 4 + 4 + 4 + 4 + 4 + 4 + 4 + 4 + 4 + 4 + 4 + 4 + 4 + 4 + 4 ≤ data.length by omega), ok_bind]
  dsimp only
  rw [read_float_ok ⟨data, m + 4 + 4 + 4 + 4 + 4 + 4 + 4 + 4 + 4 + 4 + 4 + 4 + 4 + 4 + 4 + 4 + 4 + 4⟩ (show m + 4 + 4 + 4 + 4 + 4 + 4 + 4 + 4 + 4 + 4 + 4 + 4 + 4 + 4 + 4 + 4 + 4 + 4 + 4 ≤ data.length by omega), ok_bind]
  dsimp only
  rw [read_float_ok ⟨data, m + 4 + 4 + 4 + 4 + 4 + 4 + 4 + 4 + 4 + 4 + 4 + 4 + 4 + 4 + 4 + 4 + 4 + 4 + 4⟩ (show m + 4 + 4 + 4 + 4 + 4 + 4 + 4 + 4 + 4 + 4 + 4 + 4 + 4 + 4 + 4 + 4 + 4 + 4 + 4 + 4 ≤ data.length by omega), ok_bind]
  dsimp only
  rw [read_float_ok ⟨data, m + 4 + 4 + 4 + 4 + 4 + 4 + 4 + 4 + 4 + 4 + 4 + 4 + 4 + 4 + 4 + 4 + 4 + 4 + 4 + 4⟩ (show m + 4 + 4 + 4 + 4 + 4 + 4 + 4 + 4 + 4 + 4 + 4 + 4 + 4 + 4 + 4 + 4 + 4 + 4 + 4 + 4 + 4 ≤ data.length by omega), ok_bind]
  dsimp only
  rw [read_float_ok ⟨data, m + 4 + 4 + 4 + 4 + 4 + 4 + 4 + 4 + 4 + 4 + 4 + 4 + 4 + 4 + 4 + 4 + 4 + 4 + 4 + 4 + 4⟩ (show m + 4 + 4 + 4 + 4 + 4 + 4 + 4 + 4 + 4 + 4 + 4 + 4 + 4 + 4 + 4 + 4 + 4 + 4 + 4 + 4 + 4 + 4 ≤ data.length by omega), ok_bind]
  dsimp only
  rw [read_float_ok ⟨data, m + 4 + 4 + 4 + 4 + 4 + 4 + 4 + 4 + 4 + 4 + 4 + 4 + 4 + 4 + 4 + 4 + 4 + 4 + 4 + 4 + 4 + 4⟩ (show m + 4 + 4 + 4 + 4 + 4 + 4 + 4 + 4 + 4 + 4 + 4 + 4 + 4 + 4 + 4 + 4 + 4 + 4 + 4 + 4 + 4 + 4 + 4 ≤ data.length by omega), ok_bind]
  dsimp only
  rw [read_float_ok ⟨data, m + 4 + 4 + 4 + 4 + 4 + 4 + 4 + 4 + 4 + 4 + 4 + 4 + 4 + 4 + 4 + 4 + 4 + 4 + 4 + 4 + 4 + 4 + 4⟩ (show m + 4 + 4 + 4 + 4 + 4 + 4 + 4 + 4 + 4 + 4 + 4 + 4 + 4 + 4 + 4 + 4 + 4 + 4 + 4 + 4 + 4 + 4 + 4 + 4 ≤ data.length by omega), ok_bind]
  dsimp only
  rw [read_int_ok ⟨data, m + 4 + 4 + 4 + 4 + 4 + 4 + 4 + 4 + 4 + 4 + 4 + 4 + 4 + 4 + 4 + 4 + 4 + 4 + 4 + 4 + 4 + 4 + 4 + 4⟩ (show m + 4 + 4 + 4 + 4 + 4 + 4 + 4 + 4 + 4 + 4 + 4 + 4 + 4 + 4 + 4 + 4 + 4 + 4 + 4 + 4 + 4 + 4 + 4 + 4 + 4 ≤ data.length by omega), ok_bind]
  dsimp only
  rw [read_int_ok ⟨data, m + 4 + 4 + 4 + 4 + 4 + 4 + 4 + 4 + 4 + 4 + 4 + 4 + 4 + 4 + 4 + 4 + 4 + 4 + 4 + 4 + 4 + 4 + 4 + 4 + 4⟩ (show m + 4 + 4 + 4 + 4 + 4 + 4 + 4 + 4 + 4 + 4 + 4 + 4 + 4 + 4 + 4 + 4 + 4 + 4 + 4 + 4 + 4 + 4 + 4 + 4 + 4 + 4 ≤ data.length by omega), ok_bind]
  dsimp only
  rfl

/-! ## Generic properties of the decode loop -/

theorem read_list_eq {α : Type} (r : BSPReader) (dir : Direntry) (size : Int)
    (f : BSPReader → Except BSPError (α × BSPReader)) :
    r.read_list dir size f =
      readN f (dir.length.tdiv size).toNat ⟨r.data, i32AsUsize dir.offset⟩ := rfl

/-- A successful `readN` always returns exactly `n` records. -/
theorem readN_length {α : Type} (f : BSPReader → Except BSPError (α × BSPReader)) :
    ∀ (n : Nat) (r : BSPReader) (l : List α) (r' : BSPReader),
      readN f n r = .ok (l, r') → l.length = n := by
  intro n
  induction n with
  | zero =>
    intro r l r' h
    simp only [readN, Except.ok.injEq, Prod.mk.injEq] at h
    simp [← h.1]
  | succ n ih =>
    intro r l r' h
    simp only [readN] at h
    cases hf : f r with
    | error e => rw [hf] at h; simp only [error_bind] at h; cases h
    | ok p =>
      obtain ⟨x, r1⟩ := p
      rw [hf] at h
      simp only [ok_bind] at h
      cases hN : readN f n r1 with
      | error e => rw [hN] at h; simp only [error_bind] at h; cases h
      | ok q =>
        obtain ⟨xs, r2⟩ := q
        rw [hN] at h
        simp only [ok_bind, pure_eq_ok, Except.ok.injEq, Prod.mk.injEq] at h
        rw [← h.1, List.length_cons, ih r1 xs r2 hN]

/-- When the step function uniformly consumes `size` bytes and decodes the
record at the cursor, `readN` decodes the `n` back-to-back records starting
at `m`. -/
theorem readN_map {α : Type} (f : BSPReader → Except BSPError (α × BSPReader))
    (g : Nat → α) (size : Nat) (data : List Nat)
    (hf : ∀ m, m + size ≤ data.length → f ⟨data, m⟩ = .ok (g m, ⟨data, m + size⟩)) :
    ∀ (n m : Nat), m + size * n ≤ data.length →
      readN f n ⟨data, m⟩ =
        .ok ((List.range n).map (fun i => g (m + size * i)), ⟨data, m + size * n⟩) := by
  intro n
  induction n with
  | zero => intro m h; simp [readN]
  | succ n ih =>
    intro m h
    rw [Nat.mul_succ] at h
    simp only [readN]
    rw [hf m (by omega)]
    simp only [ok_bind]
    rw [ih (m + size) (by omega)]
    simp only [ok_bind, pure_eq_ok]
    have hlist : g m :: (List.range n).map (fun i => g (m + size + size * i)) =
        (List.range (n + 1)).map (fun i => g (m + size * i)) := by
      rw [List.range_succ_eq_map, List.map_cons, List.map_map]
      congr 1
      apply List.map_congr_left
      intro i hi
      simp only [Function.comp_apply]
      rw [Nat.mul_succ]
      congr 1
      omega
    have hmark : m + size + size * n = m + size * (n + 1) := by
      rw [Nat.mul_succ]; omega
    rw [hlist, hmark]

/-- Rust `i32` division on two non-negative values agrees with `Nat` floor
division. -/
theorem tdiv_toNat_of_nonneg (a b : Int) (ha : 0 ≤ a) (hb : 0 ≤ b) :
    (a.tdiv b).toNat = a.toNat / b.toNat := by
  obtain ⟨n, rfl⟩ := Int.eq_ofNat_of_zero_le ha
  obtain ⟨k, rfl⟩ := Int.eq_ofNat_of_zero_le hb
  rfl

/-- Rust `i32` division of a negative length by a positive record size is
non-positive, so the decode loop runs zero times. -/
theorem tdiv_toNat_of_neg (a b : Int) (ha : a < 0) (hb : 0 < b) :
    (a.tdiv b).toNat = 0 := by
  cases a with
  | ofNat n => exact absurd ha (not_lt.mpr (Int.ofNat_nonneg n))
  | negSucc n =>
    cases b with
    | ofNat k =>
      show ((Int.negSucc n).tdiv (Int.ofNat k)).toNat = 0
      have hd : (Int.negSucc n).tdiv (Int.ofNat k) = -(Int.ofNat ((n + 1) / k)) := rfl
      rw [hd]
      exact Int.toNat_of_nonpos (neg_nonpos.mpr (Int.ofNat_nonneg _))
    | negSucc k => exact absurd hb (not_lt.mpr (le_of_lt (Int.negSucc_lt_zero k)))

/-! ## Spec-side encoders (documented little-endian byte layout of §3/§6) -/

/-- Encode an unsigned 32-bit value (float bit pattern) as 4 LE bytes. -/
def encU32 (u : Nat) : List Nat :=
  [u % 2 ^ 8, u / 2 ^ 8 % 2 ^ 8, u / 2 ^ 16 % 2 ^ 8, u / 2 ^ 24 % 2 ^ 8]

/-- Encode a signed 32-bit value as 4 LE two's-complement bytes. -/
def encI32 (x : Int) : List Nat :=
  encU32 ((x % (2 : Int) ^ 32).toNat)

/-- Unsigned 32-bit round trip: recombining the four encoded bytes gives the
value back. -/
theorem u32_rt (u : Nat) (hu : u < 2 ^ 32) :
    fromLEBytes4 (u % 2 ^ 8) (u / 2 ^ 8 % 2 ^ 8) (u / 2 ^ 16 % 2 ^ 8) (u / 2 ^ 24 % 2 ^ 8) = u := by
  unfold fromLEBytes4
  omega

/-- Signed 32-bit round trip through the two's-complement encoding. -/
theorem i32_rt (x : Int) (h1 : -(2 ^ 31) ≤ x) (h2 : x < 2 ^ 31) :
    toI32 (fromLEBytes4 ((x % (2 : Int) ^ 32).toNat % 2 ^ 8)
      ((x % (2 : Int) ^ 32).toNat / 2 ^ 8 % 2 ^ 8)
      ((x % (2 : Int) ^ 32).toNat / 2 ^ 16 % 2 ^ 8)
      ((x % (2 : Int) ^ 32).toNat / 2 ^ 24 % 2 ^ 8)) = x := by
  unfold toI32 fromLEBytes4
  split_ifs <;> omega

/-- A byte value. -/
abbrev isByte (n : Nat) : Prop := n < 2 ^ 8

/-- A 32-bit pattern (float field). -/
abbrev isU32 (n : Nat) : Prop := n < 2 ^ 32

/-- An `i32` value. -/
abbrev isI32 (x : Int) : Prop := -(2 ^ 31) ≤ x ∧ x < 2 ^ 31

abbrev validPlane (p : Plane) : Prop :=
  isU32 p.normal.1 ∧ isU32 p.normal.2.1 ∧ isU32 p.normal.2.2 ∧ isU32 p.dist

/-- The documented 16-byte `Plane` layout. -/
def encodePlane (p : Plane) : List Nat :=
  encU32 p.normal.1 ++
  (encU32 p.normal.2.1 ++
  (encU32 p.normal.2.2 ++
  (encU32 p.dist)))

theorem encodePlane_length (p : Plane) : (encodePlane p).length = 16 := rfl

theorem planeEnc_rt (p : Plane) (h : validPlane p) :
    readPlaneRecord ⟨encodePlane p, 0⟩ = .ok (p, ⟨encodePlane p, 16⟩) := by
  obtain ⟨⟨n0, n1, n2⟩, d⟩ := p
  obtain ⟨h0, h1, h2, h3⟩ := h
  simp only [isU32] at h0 h1 h2 h3
  rw [readPlaneRecord_ok (encodePlane ⟨(n0, n1, n2), d⟩) 0 (by
    have hL := encodePlane_length ⟨(n0, n1, n2), d⟩
    omega)]
  have y0 : u32At (encodePlane ⟨(n0, n1, n2), d⟩) 0 = n0 := u32_rt n0 h0
  have y1 : u32At (encodePlane ⟨(n0, n1, n2), d⟩) (0 + 4) = n1 := u32_rt n1 h1
  have y2 : u32At (encodePlane ⟨(n0, n1, n2), d⟩) (0 + 8) = n2 := u32_rt n2 h2
  have y3 : u32At (encodePlane ⟨(n0, n1, n2), d⟩) (0 + 12) = d := u32_rt d h3
  have key : planeAt (encodePlane ⟨(n0, n1, n2), d⟩) 0 = ⟨(n0, n1, n2), d⟩ := by
    dsimp only [planeAt]
    rw [y0, y1, y2, y3]
  rw [key]
abbrev validBrush (b : Brush) : Prop :=
  isI32 b.brushside ∧ isI32 b.n_brushsides ∧ isI32 b.texture

/-- The documented 12-byte `Brush` layout. -/
def encodeBrush (b : Brush) : List Nat :=
  encI32 b.brushside ++
  (encI32 b.n_brushsides ++
  (encI32 b.texture))

theorem encodeBrush_length (b : Brush) : (encodeBrush b).length = 12 := rfl

theorem brushEnc_rt (b : Brush) (h : validBrush b) :
    readBrushRecord ⟨encodeBrush b, 0⟩ = .ok (b, ⟨encodeBrush b, 12⟩) := by
  obtain ⟨x, y, z⟩ := b
  obtain ⟨⟨hx1, hx2⟩, ⟨hy1, hy2⟩, ⟨hz1, hz2⟩⟩ := h
  simp only at hx1 hx2 hy1 hy2 hz1 hz2
  rw [readBrushRecord_ok (encodeBrush ⟨x, y, z⟩) 0 (by
    have hL := encodeBrush_length ⟨x, y, z⟩
    omega)]
  have y0 : i32At (encodeBrush ⟨x, y, z⟩) 0 = x := i32_rt x hx1 hx2
  have y1 : i32At (encodeBrush ⟨x, y, z⟩) (0 + 4) = y := i32_rt y hy1 hy2
  have y2 : i32At (encodeBrush ⟨x, y, z⟩) (0 + 8) = z := i32_rt z hz1 hz2
  have key : brushAt (encodeBrush ⟨x, y, z⟩) 0 = ⟨x, y, z⟩ := by
    dsimp only [brushAt]
    rw [y0, y1, y2]
  rw [key]
theorem getD_after64 (l rest : List Nat) (k j : Nat) (h : l.length = 64) (hk : k = 64 + j) :
    (l ++ rest).getD k 0 = rest.getD j 0 := by
  subst hk
  rw [List.getD_append_right _ _ _ _ (by omega), h]
  congr 1
  omega

abbrev validTexture (t : Texture) : Prop :=
  t.name.length = 64 ∧ utf8Valid t.name ∧ isI32 t.flags ∧ isI32 t.contents

/-- The documented 72-byte `Texture` layout. -/
def encodeTexture (t : Texture) : List Nat :=
  t.name ++ encI32 t.flags ++ encI32 t.contents

theorem textureEnc_rt (t : Texture) (h : validTexture t) :
    readTextureRecord ⟨encodeTexture t, 0⟩ = .ok (t, ⟨encodeTexture t, 72⟩) := by
  obtain ⟨name, fl, co⟩ := t
  obtain ⟨hlen, hv, ⟨hf1, hf2⟩, ⟨hc1, hc2⟩⟩ := h
  simp only at hlen hv hf1 hf2 hc1 hc2
  have hslice : ((encodeTexture ⟨name, fl, co⟩).drop 0).take 64 = name := by
    simp only [List.drop_zero, encodeTexture, List.append_assoc]
    rw [← hlen, List.take_left]
  have hlen' : (encodeTexture ⟨name, fl, co⟩).length = 72 := by
    simp [encodeTexture, encI32, encU32, hlen]
  rw [readTextureRecord_ok _ 0 (by simp [hlen']) (by rw [hslice]; exact hv)]
  simp only [textureAt, hslice, i32At, u32At, byteAt, encodeTexture, List.append_assoc]
  rw [getD_after64 _ _ 64 0 hlen (by norm_num), getD_after64 _ _ 65 1 hlen (by norm_num),
      getD_after64 _ _ 66 2 hlen (by norm_num), getD_after64 _ _ 67 3 hlen (by norm_num),
      getD_after64 _ _ 68 4 hlen (by norm_num), getD_after64 _ _ 69 5 hlen (by norm_num),
      getD_after64 _ _ 70 6 hlen (by norm_num), getD_after64 _ _ 71 7 hlen (by norm_num)]
  simp [hlen, encI32, encU32, fromLEBytes4, List.getD]
  repeat' apply And.intro
  all_goals (first | omega | (simp only [toI32]; split_ifs <;> omega))

abbrev validNode (n : Node) : Prop :=
  isI32 n.plane ∧ isI32 n.children.1 ∧ isI32 n.children.2 ∧
  isI32 n.mins.1 ∧ isI32 n.mins.2.1 ∧ isI32 n.mins.2.2 ∧
  isI32 n.maxs.1 ∧ isI32 n.maxs.2.1 ∧ isI32 n.maxs.2.2

/-- The documented 36-byte `Node` layout. -/
def encodeNode (n : Node) : List Nat :=
  encI32 n.plane ++
  (encI32 n.children.1 ++
  (encI32 n.children.2 ++
  (encI32 n.mins.1 ++
  (encI32 n.mins.2.1 ++
  (encI32 n.mins.2.2 ++
  (encI32 n.maxs.1 ++
  (encI32 n.maxs.2.1 ++
  (encI32 n.maxs.2.2))))))))

theorem encodeNode_length (n : Node) : (encodeNode n).length = 36 := rfl

theorem nodeEnc_rt (n : Node) (h : validNode n) :
    readNodeRecord ⟨encodeNode n, 0⟩ = .ok (n, ⟨encodeNode n, 36⟩) := by
  obtain ⟨p, ⟨c0, c1⟩, ⟨mi0, mi1, mi2⟩, ⟨ma0, ma1, ma2⟩⟩ := n
  obtain ⟨⟨a1, a2⟩, ⟨b1, b2⟩, ⟨d1, d2⟩, ⟨e1, e2⟩, ⟨f1, f2⟩, ⟨g1, g2⟩, ⟨i1, i2⟩, ⟨j1, j2⟩, ⟨k1, k2⟩⟩ := h
  simp only at a1 a2 b1 b2 d1 d2 e1 e2 f1 f2 g1 g2 i1 i2 j1 j2 k1 k2
  rw [readNodeRecord_ok (encodeNode ⟨p, (c0, c1), (mi0, mi1, mi2), (ma0, ma1, ma2)⟩) 0 (by
    have hL := encodeNode_length ⟨p, (c0, c1), (mi0, mi1, mi2), (ma0, ma1, ma2)⟩
    omega)]
  have y0 : i32At (encodeNode ⟨p, (c0, c1), (mi0, mi1, mi2), (ma0, ma1, ma2)⟩) 0 = p := i32_rt p a1 a2
  have y1 : i32At (encodeNode ⟨p, (c0, c1), (mi0, mi1, mi2), (ma0, ma1, ma2)⟩) (0 + 4) = c0 := i32_rt c0 b1 b2
  have y2 : i32At (encodeNode ⟨p, (c0, c1), (mi0, mi1, mi2), (ma0, ma1, ma2)⟩) (0 + 8) = c1 := i32_rt c1 d1 d2
  have y3 : i32At (encodeNode ⟨p, (c0, c1), (mi0, mi1, mi2), (ma0, ma1, ma2)⟩) (0 + 12) = mi0 := i32_rt mi0 e1 e2
  have y4 : i32At (encodeNode ⟨p, (c0, c1), (mi0, mi1, mi2), (ma0, ma1, ma2)⟩) (0 + 16) = mi1 := i32_rt mi1 f1 f2
  have y5 : i32At (encodeNode ⟨p, (c0, c1), (mi0, mi1, mi2), (ma0, ma1, ma2)⟩) (0 + 20) = mi2 := i32_rt mi2 g1 g2
  have y6 : i32At (encodeNode ⟨p, (c0, c1), (mi0, mi1, mi2), (ma0, ma1, ma2)⟩) (0 + 24) = ma0 := i32_rt ma0 i1 i2
  have y7 : i32At (encodeNode ⟨p, (c0, c1), (mi0, mi1, mi2), (ma0, ma1, ma2)⟩) (0 + 28) = ma1 := i32_rt ma1 j1 j2
  have y8 : i32At (encodeNode ⟨p, (c0, c1), (mi0, mi1, mi2), (ma0, ma1, ma2)⟩) (0 + 32) = ma2 := i32_rt ma2 k1 k2
  have key : nodeAt (encodeNode ⟨p, (c0, c1), (mi0, mi1, mi2), (ma0, ma1, ma2)⟩) 0 = ⟨p, (c0, c1), (mi0, mi1, mi2), (ma0, ma1, ma2)⟩ := by
    dsimp only [nodeAt]
    rw [y0, y1, y2, y3, y4, y5, y6, y7, y8]
  rw [key]
abbrev validLeaf (l : Leaf) : Prop :=
  isI32 l.cluster ∧ isI32 l.area ∧
  isI32 l.mins.1 ∧ isI32 l.mins.2.1 ∧ isI32 l.mins.2.2 ∧
  isI32 l.maxs.1 ∧ isI32 l.maxs.2.1 ∧ isI32 l.maxs.2.2 ∧
  isI32 l.leafface ∧ isI32 l.n_leaffaces ∧ isI32 l.leafbrush ∧ isI32 l.n_leafbrushes

/-- The documented 48-byte `Leaf` layout. -/
def encodeLeaf (l : Leaf) : List Nat :=
  encI32 l.cluster ++
  (encI32 l.area ++
  (encI32 l.mins.1 ++
  (encI32 l.mins.2.1 ++
  (encI32 l.mins.2.2 ++
  (encI32 l.maxs.1 ++
  (encI32 l.maxs.2.1 ++
  (encI32 l.maxs.2.2 ++
  (encI32 l.leafface ++
  (encI32 l.n_leaffaces ++
  (encI32 l.leafbrush ++
  (encI32 l.n_leafbrushes)))))))))))

theorem encodeLeaf_length (l : Leaf) : (encodeLeaf l).length = 48 := rfl

theorem leafEnc_rt (l : Leaf) (h : validLeaf l) :
    readLeafRecord ⟨encodeLeaf l, 0⟩ = .ok (l, ⟨encodeLeaf l, 48⟩) := by
  obtain ⟨cl, ar, ⟨mi0, mi1, mi2⟩, ⟨ma0, ma1, ma2⟩, lf, nlf, lb, nlb⟩ := l
  obtain ⟨⟨a1, a2⟩, ⟨b1, b2⟩, ⟨d1, d2⟩, ⟨e1, e2⟩, ⟨f1, f2⟩, ⟨g1, g2⟩, ⟨i1, i2⟩, ⟨j1, j2⟩, ⟨k1, k2⟩, ⟨o1, o2⟩, ⟨q1, q2⟩, ⟨s1, s2⟩⟩ := h
  simp only at a1 a2 b1 b2 d1 d2 e1 e2 f1 f2 g1 g2 i1 i2 j1 j2 k1 k2 o1 o2 q1 q2 s1 s2
  rw [readLeafRecord_ok (encodeLeaf ⟨cl, ar, (mi0, mi1, mi2), (ma0, ma1, ma2), lf, nlf, lb, nlb⟩) 0 (by
    have hL := encodeLeaf_length ⟨cl, ar, (mi0, mi1, mi2), (ma0, ma1, ma2), lf, nlf, lb, nlb⟩
    omega)]
  have y0 : i32At (encodeLeaf ⟨cl, ar, (mi0, mi1, mi2), (ma0, ma1, ma2), lf, nlf, lb, nlb⟩) 0 = cl := i32_rt cl a1 a2
  have y1 : i32At (encodeLeaf ⟨cl, ar, (mi0, mi1, mi2), (ma0, ma1, ma2), lf, nlf, lb, nlb⟩) (0 + 4) = ar := i32_rt ar b1 b2
  have y2 : i32At (encodeLeaf ⟨cl, ar, (mi0, mi1, mi2), (ma0, ma1, ma2), lf, nlf, lb, nlb⟩) (0 + 8) = mi0 := i32_rt mi0 d1 d2
  have y3 : i32At (encodeLeaf ⟨cl, ar, (mi0, mi1, mi2), (ma0, ma1, ma2), lf, nlf, lb, nlb⟩) (0 + 12) = mi1 := i32_rt mi1 e1 e2
  have y4 : i32At (encodeLeaf ⟨cl, ar, (mi0, mi1, mi2), (ma0, ma1, ma2), lf, nlf, lb, nlb⟩) (0 + 16) = mi2 := i32_rt mi2 f1 f2
  have y5 : i32At (encodeLeaf ⟨cl, ar, (mi0, mi1, mi2), (ma0, ma1, ma2), lf, nlf, lb, nlb⟩) (0 + 20) = ma0 := i32_rt ma0 g1 g2
  have y6 : i32At (encodeLeaf ⟨cl, ar, (mi0, mi1, mi2), (ma0, ma1, ma2), lf, nlf, lb, nlb⟩) (0 + 24) = ma1 := i32_rt ma1 i1 i2
  have y7 : i32At (encodeLeaf ⟨cl, ar, (mi0, mi1, mi2), (ma0, ma1, ma2), lf, nlf, lb, nlb⟩) (0 + 28) = ma2 := i32_rt ma2 j1 j2
  have y8 : i32At (encodeLeaf ⟨cl, ar, (mi0, mi1, mi2), (ma0, ma1, ma2), lf, nlf, lb, nlb⟩) (0 + 32) = lf := i32_rt lf k1 k2
  have y9 : i32At (encodeLeaf ⟨cl, ar, (mi0, mi1, mi2), (ma0, ma1, ma2), lf, nlf, lb, nlb⟩) (0 + 36) = nlf := i32_rt nlf o1 o2
  have y10 : i32At (encodeLeaf ⟨cl, ar, (mi0, mi1, mi2), (ma0, ma1, ma2), lf, nlf, lb, nlb⟩) (0 + 40) = lb := i32_rt lb q1 q2
  have y11 : i32At (encodeLeaf ⟨cl, ar, (mi0, mi1, mi2), (ma0, ma1, ma2), lf, nlf, lb, nlb⟩) (0 + 44) = nlb := i32_rt nlb s1 s2
  have key : leafAt (encodeLeaf ⟨cl, ar, (mi0, mi1, mi2), (ma0, ma1, ma2), lf, nlf, lb, nlb⟩) 0 = ⟨cl, ar, (mi0, mi1, mi2), (ma0, ma1, ma2), lf, nlf, lb, nlb⟩ := by
    dsimp only [leafAt]
    rw [y0, y1, y2, y3, y4, y5, y6, y7, y8, y9, y10, y11]
  rw [key]
abbrev validModel (mo : Model) : Prop :=
  isU32 mo.mins.1 ∧ isU32 mo.mins.2.1 ∧ isU32 mo.mins.2.2 ∧
  isU32 mo.maxs.1 ∧ isU32 mo.maxs.2.1 ∧ isU32 mo.maxs.2.2 ∧
  isI32 mo.face ∧ isI32 mo.n_faces ∧ isI32 mo.brush ∧ isI32 mo.n_brushes

/-- The documented 40-byte `Model` layout. -/
def encodeModel (mo : Model) : List Nat :=
  encU32 mo.mins.1 ++
  (encU32 mo.mins.2.1 ++
  (encU32 mo.mins.2.2 ++
  (encU32 mo.maxs.1 ++
  (encU32 mo.maxs.2.1 ++
  (encU32 mo.maxs.2.2 ++
  (encI32 mo.face ++
  (encI32 mo.n_faces ++
  (encI32 mo.brush ++
  (encI32 mo.n_brushes)))))))))

theorem encodeModel_length (mo : Model) : (encodeModel mo).length = 40 := rfl

theorem modelEnc_rt (mo : Model) (h : validModel mo) :
    readModelRecord ⟨encodeModel mo, 0⟩ = .ok (mo, ⟨encodeModel mo, 40⟩) := by
  obtain ⟨⟨mi0, mi1, mi2⟩, ⟨ma0, ma1, ma2⟩, fa, nfa, br, nbr⟩ := mo
  obtain ⟨a1, b1, d1, e1, f1, g1, ⟨i1, i2⟩, ⟨j1, j2⟩, ⟨k1, k2⟩, ⟨o1, o2⟩⟩ := h
  simp only [isU32] at a1 b1 d1 e1 f1 g1
  simp only at i1 i2 j1 j2 k1 k2 o1 o2
  rw [readModelRecord_ok (encodeModel ⟨(mi0, mi1, mi2), (ma0, ma1, ma2), fa, nfa, br, nbr⟩) 0 (by
    have hL := encodeModel_length ⟨(mi0, mi1, mi2), (ma0, ma1, ma2), fa, nfa, br, nbr⟩
    omega)]
  have y0 : u32At (encodeModel ⟨(mi0, mi1, mi2), (ma0, ma1, ma2), fa, nfa, br, nbr⟩) 0 = mi0 := u32_rt mi0 a1
  have y1 : u32At (encodeModel ⟨(mi0, mi1, mi2), (ma0, ma1, ma2), fa, nfa, br, nbr⟩) (0 + 4) = mi1 := u32_rt mi1 b1
  have y2 : u32At (encodeModel ⟨(mi0, mi1, mi2), (ma0, ma1, ma2), fa, nfa, br, nbr⟩) (0 + 8) = mi2 := u32_rt mi2 d1
  have y3 : u32At (encodeModel ⟨(mi0, mi1, mi2), (ma0, ma1, ma2), fa, nfa, br, nbr⟩) (0 + 12) = ma0 := u32_rt ma0 e1
  have y4 : u32At (encodeModel ⟨(mi0, mi1, mi2), (ma0, ma1, ma2), fa, nfa, br, nbr⟩) (0 + 16) = ma1 := u32_rt ma1 f1
  have y5 : u32At (encodeModel ⟨(mi0, mi1, mi2), (ma0, ma1, ma2), fa, nfa, br, nbr⟩) (0 + 20) = ma2 := u32_rt ma2 g1
  have y6 : i32At (encodeModel ⟨(mi0, mi1, mi2), (ma0, ma1, ma2), fa, nfa, br, nbr⟩) (0 + 24) = fa := i32_rt fa i1 i2
  have y7 : i32At (encodeModel ⟨(mi0, mi1, mi2), (ma0, ma1, ma2), fa, nfa, br, nbr⟩) (0 + 28) = nfa := i32_rt nfa j1 j2
  have y8 : i32At (encodeModel ⟨(mi0, mi1, mi2), (ma0, ma1, ma2), fa, nfa, br, nbr⟩) (0 + 32) = br := i32_rt br k1 k2
  have y9 : i32At (encodeModel ⟨(mi0, mi1, mi2), (ma0, ma1, ma2), fa, nfa, br, nbr⟩) (0 + 36) = nbr := i32_rt nbr o1 o2
  have key : modelAt (encodeModel ⟨(mi0, mi1, mi2), (ma0, ma1, ma2), fa, nfa, br, nbr⟩) 0 = ⟨(mi0, mi1, mi2), (ma0, ma1, ma2), fa, nfa, br, nbr⟩ := by
    dsimp only [modelAt]
    rw [y0, y1, y2, y3, y4, y5, y6, y7, y8, y9]
  rw [key]
abbrev validBrushside (b : Brushside) : Prop := isI32 b.plane ∧ isI32 b.texture

/-- The documented 8-byte `Brushside` layout. -/
def encodeBrushside (b : Brushside) : List Nat :=
  encI32 b.plane ++
  (encI32 b.texture)

theorem encodeBrushside_length (b : Brushside) : (encodeBrushside b).length = 8 := rfl

theorem brushsideEnc_rt (b : Brushside) (h : validBrushside b) :
    readBrushsideRecord ⟨encodeBrushside b, 0⟩ = .ok (b, ⟨encodeBrushside b, 8⟩) := by
  obtain ⟨x, y⟩ := b
  obtain ⟨⟨hx1, hx2⟩, ⟨hy1, hy2⟩⟩ := h
  simp only at hx1 hx2 hy1 hy2
  rw [readBrushsideRecord_ok (encodeBrushside ⟨x, y⟩) 0 (by
    have hL := encodeBrushside_length ⟨x, y⟩
    omega)]
  have y0 : i32At (encodeBrushside ⟨x, y⟩) 0 = x := i32_rt x hx1 hx2
  have y1 : i32At (encodeBrushside ⟨x, y⟩) (0 + 4) = y := i32_rt y hy1 hy2
  have key : brushsideAt (encodeBrushside ⟨x, y⟩) 0 = ⟨x, y⟩ := by
    dsimp only [brushsideAt]
    rw [y0, y1]
  rw [key]
abbrev validVertex (v : Vertex) : Prop :=
  isU32 v.position.1 ∧ isU32 v.position.2.1 ∧ isU32 v.position.2.2 ∧
  isU32 v.texcoord.1.1 ∧ isU32 v.texcoord.1.2 ∧ isU32 v.texcoord.2.1 ∧ isU32 v.texcoord.2.2 ∧
  isU32 v.normal.1 ∧ isU32 v.normal.2.1 ∧ isU32 v.normal.2.2 ∧
  isByte v.color.1 ∧ isByte v.color.2.1 ∧ isByte v.color.2.2.1 ∧ isByte v.color.2.2.2

/-- The documented 44-byte `Vertex` layout: 10 floats then 4 color bytes. -/
def encodeVertex (v : Vertex) : List Nat :=
  encU32 v.position.1 ++
  (encU32 v.position.2.1 ++
  (encU32 v.position.2.2 ++
  (encU32 v.texcoord.1.1 ++
  (encU32 v.texcoord.1.2 ++
  (encU32 v.texcoord.2.1 ++
  (encU32 v.texcoord.2.2 ++
  (encU32 v.normal.1 ++
  (encU32 v.normal.2.1 ++
  (encU32 v.normal.2.2 ++
  ([v.color.1, v.color.2.1, v.color.2.2.1, v.color.2.2.2]))))))))))

theorem encodeVertex_length (v : Vertex) : (encodeVertex v).length = 44 := rfl

theorem vertexEnc_rt (v : Vertex) (h : validVertex v) :
    readVertexRecord ⟨encodeVertex v, 0⟩ = .ok (v, ⟨encodeVertex v, 44⟩) := by
  obtain ⟨⟨p0, p1, p2⟩, ⟨⟨t00, t01⟩, ⟨t10, t11⟩⟩, ⟨n0, n1, n2⟩, ⟨c0, c1, c2, c3⟩⟩ := v
  obtain ⟨a1, b1, d1, e1, f1, g1, i1, j1, k1, o1, q1, q2, q3, q4⟩ := h
  simp only [isU32] at a1 b1 d1 e1 f1 g1 i1 j1 k1 o1
  rw [readVertexRecord_ok (encodeVertex ⟨(p0, p1, p2), ((t00, t01), (t10, t11)), (n0, n1, n2), (c0, c1, c2, c3)⟩) 0 (by
    have hL := encodeVertex_length ⟨(p0, p1, p2), ((t00, t01), (t10, t11)), (n0, n1, n2), (c0, c1, c2, c3)⟩
    omega)]
  have y0 : u32At (encodeVertex ⟨(p0, p1, p2), ((t00, t01), (t10, t11)), (n0, n1, n2), (c0, c1, c2, c3)⟩) 0 = p0 := u32_rt p0 a1
  have y1 : u32At (encodeVertex ⟨(p0, p1, p2), ((t00, t01), (t10, t11)), (n0, n1, n2), (c0, c1, c2, c3)⟩) (0 + 4) = p1 := u32_rt p1 b1
  have y2 : u32At (encodeVertex ⟨(p0, p1, p2), ((t00, t01), (t10, t11)), (n0, n1, n2), (c0, c1, c2, c3)⟩) (0 + 8) = p2 := u32_rt p2 d1
  have y3 : u32At (encodeVertex ⟨(p0, p1, p2), ((t00, t01), (t10, t11)), (n0, n1, n2), (c0, c1, c2, c3)⟩) (0 + 12) = t00 := u32_rt t00 e1
  have y4 : u32At (encodeVertex ⟨(p0, p1, p2), ((t00, t01), (t10, t11)), (n0, n1, n2), (c0, c1, c2, c3)⟩) (0 + 16) = t01 := u32_rt t01 f1
  have y5 : u32At (encodeVertex ⟨(p0, p1, p2), ((t00, t01), (t10, t11)), (n0, n1, n2), (c0, c1, c2, c3)⟩) (0 + 20) = t10 := u32_rt t10 g1
  have y6 : u32At (encodeVertex ⟨(p0, p1, p2), ((t00, t01), (t10, t11)), (n0, n1, n2), (c0, c1, c2, c3)⟩) (0 + 24) = t11 := u32_rt t11 i1
  have y7 : u32At (encodeVertex ⟨(p0, p1, p2), ((t00, t01), (t10, t11)), (n0, n1, n2), (c0, c1, c2, c3)⟩) (0 + 28) = n0 := u32_rt n0 j1
  have y8 : u32At (encodeVertex ⟨(p0, p1, p2), ((t00, t01), (t10, t11)), (n0, n1, n2), (c0, c1, c2, c3)⟩) (0 + 32) = n1 := u32_rt n1 k1
  have y9 : u32At (encodeVertex ⟨(p0, p1, p2), ((t00, t01), (t10, t11)), (n0, n1, n2), (c0, c1, c2, c3)⟩) (0 + 36) = n2 := u32_rt n2 o1
  have y10 : byteAt (encodeVertex ⟨(p0, p1, p2), ((t00, t01), (t10, t11)), (n0, n1, n2), (c0, c1, c2, c3)⟩) (0 + 40) = c0 := rfl
  have y11 : byteAt (encodeVertex ⟨(p0, p1, p2), ((t00, t01), (t10, t11)), (n0, n1, n2), (c0, c1, c2, c3)⟩) (0 + 41) = c1 := rfl
  have y12 : byteAt (encodeVertex ⟨(p0, p1, p2), ((t00, t01), (t10, t11)), (n0, n1, n2), (c0, c1, c2, c3)⟩) (0 + 42) = c2 := rfl
  have y13 : byteAt (encodeVertex ⟨(p0, p1, p2), ((t00, t01), (t10, t11)), (n0, n1, n2), (c0, c1, c2, c3)⟩) (0 + 43) = c3 := rfl
  have key : vertexAt (encodeVertex ⟨(p0, p1, p2), ((t00, t01), (t10, t11)), (n0, n1, n2), (c0, c1, c2, c3)⟩) 0 = ⟨(p0, p1, p2), ((t00, t01), (t10, t11)), (n0, n1, n2), (c0, c1, c2, c3)⟩ := by
    dsimp only [vertexAt]
    rw [y0, y1, y2, y3, y4, y5, y6, y7, y8, y9, y10, y11, y12, y13]
  rw [key]
abbrev validEffect (e : Effect) : Prop :=
  e.name.length = 64 ∧ utf8Valid e.name ∧ isI32 e.brush ∧ isI32 e.unknown

/-- The documented 72-byte `Effect` layout. -/
def encodeEffect (e : Effect) : List Nat :=
  e.name ++ encI32 e.brush ++ encI32 e.unknown

theorem effectEnc_rt (e : Effect) (h : validEffect e) :
    readEffectRecord ⟨encodeEffect e, 0⟩ = .ok (e, ⟨encodeEffect e, 72⟩) := by
  obtain ⟨name, br, un⟩ := e
  obtain ⟨hlen, hv, ⟨hf1, hf2⟩, ⟨hc1, hc2⟩⟩ := h
  simp only at hlen hv hf1 hf2 hc1 hc2
  have hslice : ((encodeEffect ⟨name, br, un⟩).drop 0).take 64 = name := by
    simp only [List.drop_zero, encodeEffect, List.append_assoc]
    rw [← hlen, List.take_left]
  have hlen' : (encodeEffect ⟨name, br, un⟩).length = 72 := by
    simp [encodeEffect, encI32, encU32, hlen]
  rw [readEffectRecord_ok _ 0 (by simp [hlen']) (by rw [hslice]; exact hv)]
  simp only [effectAt, hslice, i32At, u32At, byteAt, encodeEffect, List.append_assoc]
  rw [getD_after64 _ _ 64 0 hlen (by norm_num), getD_after64 _ _ 65 1 hlen (by norm_num),
      getD_after64 _ _ 66 2 hlen (by norm_num), getD_after64 _ _ 67 3 hlen (by norm_num),
      getD_after64 _ _ 68 4 hlen (by norm_num), getD_after64 _ _ 69 5 hlen (by norm_num),
      getD_after64 _ _ 70 6 hlen (by norm_num), getD_after64 _ _ 71 7 hlen (by norm_num)]
  simp [hlen, encI32, encU32, fromLEBytes4, List.getD]
  repeat' apply And.intro
  all_goals (first | omega | (simp only [toI32]; split_ifs <;> omega))

abbrev validFace (f : Face) : Prop :=
  isI32 f.texture ∧ isI32 f.effect ∧ isI32 f.f_type ∧ isI32 f.vertex ∧ isI32 f.n_vertexes ∧
  isI32 f.meshvert ∧ isI32 f.n_meshverts ∧ isI32 f.lm_index ∧
  isI32 f.lm_start.1 ∧ isI32 f.lm_start.2 ∧ isI32 f.lm_size.1 ∧ isI32 f.lm_size.2 ∧
  isU32 f.lm_origin.1 ∧ isU32 f.lm_origin.2.1 ∧ isU32 f.lm_origin.2.2 ∧
  isU32 f.lm_vecs.1.1 ∧ isU32 f.lm_vecs.1.2.1 ∧ isU32 f.lm_vecs.1.2.2 ∧
  isU32 f.lm_vecs.2.1 ∧ isU32 f.lm_vecs.2.2.1 ∧ isU32 f.lm_vecs.2.2.2 ∧
  isU32 f.normal.1 ∧ isU32 f.normal.2.1 ∧ isU32 f.normal.2.2 ∧
  isI32 f.size.1 ∧ isI32 f.size.2

/-- The documented 104-byte `Face` layout. -/
def encodeFace (f : Face) : List Nat :=
  encI32 f.texture ++
  (encI32 f.effect ++
  (encI32 f.f_type ++
  (encI32 f.vertex ++
  (encI32 f.n_vertexes ++
  (encI32 f.meshvert ++
  (encI32 f.n_meshverts ++
  (encI32 f.lm_index ++
  (encI32 f.lm_start.1 ++
  (encI32 f.lm_start.2 ++
  (encI32 f.lm_size.1 ++
  (encI32 f.lm_size.2 ++
  (encU32 f.lm_origin.1 ++
  (encU32 f.lm_origin.2.1 ++
  (encU32 f.lm_origin.2.2 ++
  (encU32 f.lm_vecs.1.1 ++
  (encU32 f.lm_vecs.1.2.1 ++
  (encU32 f.lm_vecs.1.2.2 ++
  (encU32 f.lm_vecs.2.1 ++
  (encU32 f.lm_vecs.2.2.1 ++
  (encU32 f.lm_vecs.2.2.2 ++
  (encU32 f.normal.1 ++
  (encU32 f.normal.2.1 ++
  (encU32 f.normal.2.2 ++
  (encI32 f.size.1 ++
  (encI32 f.size.2)))))))))))))))))))))))))

theorem encodeFace_length (f : Face) : (encodeFace f).length = 104 := rfl

theorem faceEnc_rt (f : Face) (h : validFace f) :
    readFaceRecord ⟨encodeFace f, 0⟩ = .ok (f, ⟨encodeFace f, 104⟩) := by
  obtain ⟨tx, ef, ft, vx, nvx, mv, nmv, lmi, ⟨ls0, ls1⟩, ⟨lz0, lz1⟩, ⟨lo0, lo1, lo2⟩,
    ⟨⟨v00, v01, v02⟩, ⟨v10, v11, v12⟩⟩, ⟨n0, n1, n2⟩, ⟨s0, s1⟩⟩ := f
  obtain ⟨⟨a1, a2⟩, ⟨b1, b2⟩, ⟨d1, d2⟩, ⟨e1, e2⟩, ⟨f1, f2⟩, ⟨g1, g2⟩, ⟨i1, i2⟩, ⟨j1, j2⟩,
    ⟨k1, k2⟩, ⟨o1, o2⟩, ⟨q1, q2⟩, ⟨s1', s2'⟩, u1, u2, u3, u4, u5, u6, u7, u8, u9, u10,
    u11, u12, ⟨w1, w2⟩, ⟨w3, w4⟩⟩ := h
  simp only [isU32] at u1 u2 u3 u4 u5 u6 u7 u8 u9 u10 u11 u12
  simp only at a1 a2 b1 b2 d1 d2 e1 e2 f1 f2 g1 g2 i1 i2 j1 j2 k1 k2 o1 o2 q1 q2
  simp only at s1' s2' w1 w2 w3 w4
  rw [readFaceRecord_ok (encodeFace ⟨tx, ef, ft, vx, nvx, mv, nmv, lmi, (ls0, ls1), (lz0, lz1), (lo0, lo1, lo2),
      ((v00, v01, v02), (v10, v11, v12)), (n0, n1, n2), (s0, s1)⟩) 0 (by
    have hL := encodeFace_length ⟨tx, ef, ft, vx, nvx, mv, nmv, lmi, (ls0, ls1), (lz0, lz1), (lo0, lo1, lo2),
      ((v00, v01, v02), (v10, v11, v12)), (n0, n1, n2), (s0, s1)⟩
    omega)]
  have y0 : i32At (encodeFace ⟨tx, ef, ft, vx, nvx, mv, nmv, lmi, (ls0, ls1), (lz0, lz1), (lo0, lo1, lo2),
      ((v00, v01, v02), (v10, v11, v12)), (n0, n1, n2), (s0, s1)⟩) 0 = tx := i32_rt tx a1 a2
  have y1 : i32At (encodeFace ⟨tx, ef, ft, vx, nvx, mv, nmv, lmi, (ls0, ls1), (lz0, lz1), (lo0, lo1, lo2),
      ((v00, v01, v02), (v10, v11, v12)), (n0, n1, n2), (s0, s1)⟩) (0 + 4) = ef := i32_rt ef b1 b2
  have y2 : i32At (encodeFace ⟨tx, ef, ft, vx, nvx, mv, nmv, lmi, (ls0, ls1), (lz0, lz1), (lo0, lo1, lo2),
      ((v00, v01, v02), (v10, v11, v12)), (n0, n1, n2), (s0, s1)⟩) (0 + 8) = ft := i32_rt ft d1 d2
  have y3 : i32At (encodeFace ⟨tx, ef, ft, vx, nvx, mv, nmv, lmi, (ls0, ls1), (lz0, lz1), (lo0, lo1, lo2),
      ((v00, v01, v02), (v10, v11, v12)), (n0, n1, n2), (s0, s1)⟩) (0 + 12) = vx := i32_rt vx e1 e2
  have y4 : i32At (encodeFace ⟨tx, ef, ft, vx, nvx, mv, nmv, lmi, (ls0, ls1), (lz0, lz1), (lo0, lo1, lo2),
      ((v00, v01, v02), (v10, v11, v12)), (n0, n1, n2), (s0, s1)⟩) (0 + 16) = nvx := i32_rt nvx f1 f2
  have y5 : i32At (encodeFace ⟨tx, ef, ft, vx, nvx, mv, nmv, lmi, (ls0, ls1), (lz0, lz1), (lo0, lo1, lo2),
      ((v00, v01, v02), (v10, v11, v12)), (n0, n1, n2), (s0, s1)⟩) (0 + 20) = mv := i32_rt mv g1 g2
  have y6 : i32At (encodeFace ⟨tx, ef, ft, vx, nvx, mv, nmv, lmi, (ls0, ls1), (lz0, lz1), (lo0, lo1, lo2),
      ((v00, v01, v02), (v10, v11, v12)), (n0, n1, n2), (s0, s1)⟩) (0 + 24) = nmv := i32_rt nmv i1 i2
  have y7 : i32At (encodeFace ⟨tx, ef, ft, vx, nvx, mv, nmv, lmi, (ls0, ls1), (lz0, lz1), (lo0, lo1, lo2),
      ((v00, v01, v02), (v10, v11, v12)), (n0, n1, n2), (s0, s1)⟩) (0 + 28) = lmi := i32_rt lmi j1 j2
  have y8 : i32At (encodeFace ⟨tx, ef, ft, vx, nvx, mv, nmv, lmi, (ls0, ls1), (lz0, lz1), (lo0, lo1, lo2),
      ((v00, v01, v02), (v10, v11, v12)), (n0, n1, n2), (s0, s1)⟩) (0 + 32) = ls0 := i32_rt ls0 k1 k2
  have y9 : i32At (encodeFace ⟨tx, ef, ft, vx, nvx, mv, nmv, lmi, (ls0, ls1), (lz0, lz1), (lo0, lo1, lo2),
      ((v00, v01, v02), (v10, v11, v12)), (n0, n1, n2), (s0, s1)⟩) (0 + 36) = ls1 := i32_rt ls1 o1 o2
  have y10 : i32At (encodeFace ⟨tx, ef, ft, vx, nvx, mv, nmv, lmi, (ls0, ls1), (lz0, lz1), (lo0, lo1, lo2),
      ((v00, v01, v02), (v10, v11, v12)), (n0, n1, n2), (s0, s1)⟩) (0 + 40) = lz0 := i32_rt lz0 q1 q2
  have y11 : i32At (encodeFace ⟨tx, ef, ft, vx, nvx, mv, nmv, lmi, (ls0, ls1), (lz0, lz1), (lo0, lo1, lo2),
      ((v00, v01, v02), (v10, v11, v12)), (n0, n1, n2), (s0, s1)⟩) (0 + 44) = lz1 := i32_rt lz1 s1' s2'
  have y12 : u32At (encodeFace ⟨tx, ef, ft, vx, nvx, mv, nmv, lmi, (ls0, ls1), (lz0, lz1), (lo0, lo1, lo2),
      ((v00, v01, v02), (v10, v11, v12)), (n0, n1, n2), (s0, s1)⟩) (0 + 48) = lo0 := u32_rt lo0 u1
  have y13 : u32At (encodeFace ⟨tx, ef, ft, vx, nvx, mv, nmv, lmi, (ls0, ls1), (lz0, lz1), (lo0, lo1, lo2),
      ((v00, v01, v02), (v10, v11, v12)), (n0, n1, n2), (s0, s1)⟩) (0 + 52) = lo1 := u32_rt lo1 u2
  have y14 : u32At (encodeFace ⟨tx, ef, ft, vx, nvx, mv, nmv, lmi, (ls0, ls1), (lz0, lz1), (lo0, lo1, lo2),
      ((v00, v01, v02), (v10, v11, v12)), (n0, n1, n2), (s0, s1)⟩) (0 + 56) = lo2 := u32_rt lo2 u3
  have y15 : u32At (encodeFace ⟨tx, ef, ft, vx, nvx, mv, nmv, lmi, (ls0, ls1), (lz0, lz1), (lo0, lo1, lo2),
      ((v00, v01, v02), (v10, v11, v12)), (n0, n1, n2), (s0, s1)⟩) (0 + 60) = v00 := u32_rt v00 u4
  have y16 : u32At (encodeFace ⟨tx, ef, ft, vx, nvx, mv, nmv, lmi, (ls0, ls1), (lz0, lz1), (lo0, lo1, lo2),
      ((v00, v01, v02), (v10, v11, v12)), (n0, n1, n2), (s0, s1)⟩) (0 + 64) = v01 := u32_rt v01 u5
  have y17 : u32At (encodeFace ⟨tx, ef, ft, vx, nvx, mv, nmv, lmi, (ls0, ls1), (lz0, lz1), (lo0, lo1, lo2),
      ((v00, v01, v02), (v10, v11, v12)), (n0, n1, n2), (s0, s1)⟩) (0 + 68) = v02 := u32_rt v02 u6
  have y18 : u32At (encodeFace ⟨tx, ef, ft, vx, nvx, mv, nmv, lmi, (ls0, ls1), (lz0, lz1), (lo0, lo1, lo2),
      ((v00, v01, v02), (v10, v11, v12)), (n0, n1, n2), (s0, s1)⟩) (0 + 72) = v10 := u32_rt v10 u7
  have y19 : u32At (encodeFace ⟨tx, ef, ft, vx, nvx, mv, nmv, lmi, (ls0, ls1), (lz0, lz1), (lo0, lo1, lo2),
      ((v00, v01, v02), (v10, v11, v12)), (n0, n1, n2), (s0, s1)⟩) (0 + 76) = v11 := u32_rt v11 u8
  have y20 : u32At (encodeFace ⟨tx, ef, ft, vx, nvx, mv, nmv, lmi, (ls0, ls1), (lz0, lz1), (lo0, lo1, lo2),
      ((v00, v01, v02), (v10, v11, v12)), (n0, n1, n2), (s0, s1)⟩) (0 + 80) = v12 := u32_rt v12 u9
  have y21 : u32At (encodeFace ⟨tx, ef, ft, vx, nvx, mv, nmv, lmi, (ls0, ls1), (lz0, lz1), (lo0, lo1, lo2),
      ((v00, v01, v02), (v10, v11, v12)), (n0, n1, n2), (s0, s1)⟩) (0 + 84) = n0 := u32_rt n0 u10
  have y22 : u32At (encodeFace ⟨tx, ef, ft, vx, nvx, mv, nmv, lmi, (ls0, ls1), (lz0, lz1), (lo0, lo1, lo2),
      ((v00, v01, v02), (v10, v11, v12)), (n0, n1, n2), (s0, s1)⟩) (0 + 88) = n1 := u32_rt n1 u11
  have y23 : u32At (encodeFace ⟨tx, ef, ft, vx, nvx, mv, nmv, lmi, (ls0, ls1), (lz0, lz1), (lo0, lo1, lo2),
      ((v00, v01, v02), (v10, v11, v12)), (n0, n1, n2), (s0, s1)⟩) (0 + 92) = n2 := u32_rt n2 u12
  have y24 : i32At (encodeFace ⟨tx, ef, ft, vx, nvx, mv, nmv, lmi, (ls0, ls1), (lz0, lz1), (lo0, lo1, lo2),
      ((v00, v01, v02), (v10, v11, v12)), (n0, n1, n2), (s0, s1)⟩) (0 + 96) = s0 := i32_rt s0 w1 w2
  have y25 : i32At (encodeFace ⟨tx, ef, ft, vx, nvx, mv, nmv, lmi, (ls0, ls1), (lz0, lz1), (lo0, lo1, lo2),
      ((v00, v01, v02), (v10, v11, v12)), (n0, n1, n2), (s0, s1)⟩) (0 + 100) = s1 := i32_rt s1 w3 w4
  have key : faceAt (encodeFace ⟨tx, ef, ft, vx, nvx, mv, nmv, lmi, (ls0, ls1), (lz0, lz1), (lo0, lo1, lo2),
      ((v00, v01, v02), (v10, v11, v12)), (n0, n1, n2), (s0, s1)⟩) 0 = ⟨tx, ef, ft, vx, nvx, mv, nmv, lmi, (ls0, ls1), (lz0, lz1), (lo0, lo1, lo2),
      ((v00, v01, v02), (v10, v11, v12)), (n0, n1, n2), (s0, s1)⟩ := by
    dsimp only [faceAt]
    rw [y0, y1, y2, y3, y4, y5, y6, y7, y8, y9, y10, y11, y12, y13, y14, y15, y16, y17, y18, y19, y20, y21, y22, y23, y24, y25]
  rw [key]
/-- Round-trip for the bare-int32 record (leaffaces, leafbrushes, meshverts). -/
theorem intEnc_rt (x : Int) (h : isI32 x) :
    BSPReader.read_int ⟨encI32 x, 0⟩ = .ok (x, ⟨encI32 x, 4⟩) := by
  obtain ⟨h1, h2⟩ := h
  rw [read_int_ok ⟨encI32 x, 0⟩ (by
    have hL : (encI32 x).length = 4 := rfl
    dsimp only
    omega)]
  dsimp only
  have y0 : i32At (encI32 x) 0 = x := i32_rt x h1 h2
  rw [y0]
/-! ## Claims -/

/-- C4: `read_ubyte` fails with the out-of-range error exactly when
`marker ≥ buffer length`; under `marker < buffer length` it returns the byte
at the marker and advances the marker by 1, so the error branch is
unreachable. -/
theorem claim_C4 (r : BSPReader) :
    (r.read_ubyte = .error .outOfRange ↔ r.data.length ≤ r.marker) ∧
    (∀ h : r.marker < r.data.length,
      r.read_ubyte = .ok (r.data.get ⟨r.marker, h⟩, ⟨r.data, r.marker + 1⟩)) := by
  constructor
  · rw [read_ubyte_eq]
    split_ifs with hc
    · simp; omega
    · simp; omega
  · intro h
    rw [read_ubyte_ok r h]
    simp [byteAt, List.getD, List.getElem?_eq_getElem h]

/-- Witness for C4 at a concrete reader. -/
theorem claim_C4_witness :
    (0 : Nat) < ([5] : List Nat).length ∧
    (⟨[5], 0⟩ : BSPReader).read_ubyte = .ok (5, ⟨[5], 1⟩) := by
  refine ⟨by decide, ?_⟩
  have h := (claim_C4 ⟨[5], 0⟩).2 (by decide)
  simpa using h

/-- The two's-complement signed little-endian 32-bit integer formed from four
bytes (byte 0 least significant), written as the spec describes it. -/
def i32LE (b0 b1 b2 b3 : Nat) : Int :=
  if 2 ^ 31 ≤ b0 + 2 ^ 8 * b1 + 2 ^ 16 * b2 + 2 ^ 24 * b3 then
    ((b0 + 2 ^ 8 * b1 + 2 ^ 16 * b2 + 2 ^ 24 * b3 : Nat) : Int) - 2 ^ 32
  else
    ((b0 + 2 ^ 8 * b1 + 2 ^ 16 * b2 + 2 ^ 24 * b3 : Nat) : Int)

/-- C9: with `marker + 4 ≤ buffer length`, `read_int` returns the
two's-complement signed little-endian 32-bit integer formed from the 4 bytes
at `marker..marker+3` and advances the marker by exactly 4. -/
theorem claim_C9 (data : List Nat) (m : Nat) (h : m + 4 ≤ data.length) :
    (⟨data, m⟩ : BSPReader).read_int =
      .ok (i32LE (data.getD m 0) (data.getD (m + 1) 0) (data.getD (m + 2) 0)
            (data.getD (m + 3) 0), ⟨data, m + 4⟩) := by
  rw [read_int_ok ⟨data, m⟩ (by dsimp only; omega)]
  dsimp only
  have heq : i32At data m =
      i32LE (data.getD m 0) (data.getD (m + 1) 0) (data.getD (m + 2) 0) (data.getD (m + 3) 0) := by
    simp only [i32At, u32At, byteAt, fromLEBytes4, toI32, i32LE]
    split_ifs <;> omega
  rw [heq]

/-- Witness for C9: bytes `[0x78, 0x56, 0x34, 0xF2]` decode to `-230857096`. -/
theorem claim_C9_witness :
    (0 : Nat) + 4 ≤ ([0x78, 0x56, 0x34, 0xF2] : List Nat).length ∧
    (⟨[0x78, 0x56, 0x34, 0xF2], 0⟩ : BSPReader).read_int =
      .ok (i32LE 0x78 0x56 0x34 0xF2, ⟨[0x78, 0x56, 0x34, 0xF2], 4⟩) := by
  refine ⟨by decide, ?_⟩
  have h := claim_C9 [0x78, 0x56, 0x34, 0xF2] 0 (by decide)
  simpa using h

/-- The 64-byte name field holding `"q3dm0"` followed by NUL padding. -/
def q3dm0Name : List Nat := [0x71, 0x33, 0x64, 0x6D, 0x30] ++ List.replicate 59 0

/-- C7: with the `n` bytes in bounds, `read_string n` fails (invalid encoding)
exactly when those bytes are not valid UTF-8; a 64-byte field `"q3dm0"` plus
NUL padding decodes without error to the full 64-byte string (NULs retained),
whose prefix before the first NUL is `"q3dm0"`. -/
theorem claim_C7 :
    (∀ (data : List Nat) (m n : Nat), m + n ≤ data.length →
      (((⟨data, m⟩ : BSPReader).read_string n = .error .invalidEncoding ↔
          ¬ utf8Valid ((data.drop m).take n)) ∧
        (utf8Valid ((data.drop m).take n) →
          (⟨data, m⟩ : BSPReader).read_string n =
            .ok ((data.drop m).take n, ⟨data, m + n⟩)))) ∧
    q3dm0Name.length = 64 ∧
    (⟨q3dm0Name, 0⟩ : BSPReader).read_string 64 = .ok (q3dm0Name, ⟨q3dm0Name, 64⟩) ∧
    q3dm0Name.takeWhile (fun b => b != 0) = [0x71, 0x33, 0x64, 0x6D, 0x30] := by
  refine ⟨?_, by decide, rfl, by decide⟩
  intro data m n h
  constructor
  · rw [read_string_eq]
    dsimp only
    rw [if_pos h]
    by_cases hv : utf8Valid ((data.drop m).take n)
    · simp [hv]
    · simp [hv]
  · intro hv
    exact read_string_ok ⟨data, m⟩ n h hv

/-- Witness for C7's general part at the `q3dm0` buffer. -/
theorem claim_C7_witness :
    (0 : Nat) + 64 ≤ q3dm0Name.length ∧
    (((⟨q3dm0Name, 0⟩ : BSPReader).read_string 64 = .error .invalidEncoding ↔
        ¬ utf8Valid ((q3dm0Name.drop 0).take 64)) ∧
      (utf8Valid ((q3dm0Name.drop 0).take 64) →
        (⟨q3dm0Name, 0⟩ : BSPReader).read_string 64 =
          .ok ((q3dm0Name.drop 0).take 64, ⟨q3dm0Name, 0 + 64⟩))) :=
  ⟨by decide, claim_C7.1 q3dm0Name 0 64 (by decide)⟩

/-- A directory whose 17 entries are all `{offset := 0, length := 0}`. -/
def baseDirs : Direntries :=
  ⟨⟨0, 0⟩, ⟨0, 0⟩, ⟨0, 0⟩, ⟨0, 0⟩, ⟨0, 0⟩, ⟨0, 0⟩, ⟨0, 0⟩, ⟨0, 0⟩, ⟨0, 0⟩,
   ⟨0, 0⟩, ⟨0, 0⟩, ⟨0, 0⟩, ⟨0, 0⟩, ⟨0, 0⟩, ⟨0, 0⟩, ⟨0, 0⟩, ⟨0, 0⟩⟩

/-- C10: a fixed-record lump decode with a negative direntry length returns an
empty list without reading and without failing, while `read_entities` with a
negative entities offset or length fails (never returns an empty string).
The `i32` range bounds and the `Vec` size bound are invariants of the Rust
types. -/
theorem claim_C10 :
    (∀ {α : Type} (r : BSPReader) (dir : Direntry) (size : Int)
        (f : BSPReader → Except BSPError (α × BSPReader)),
        dir.length < 0 → 0 < size →
        r.read_list dir size f = .ok ([], ⟨r.data, i32AsUsize dir.offset⟩)) ∧
    (∀ (r : BSPReader) (ds : Direntries),
        r.data.length < 2 ^ 63 →
        -(2 ^ 31) ≤ ds.entities.offset → ds.entities.offset < 2 ^ 31 →
        -(2 ^ 31) ≤ ds.entities.length → ds.entities.length < 2 ^ 31 →
        (ds.entities.offset < 0 ∨ ds.entities.length < 0) →
        r.read_entities ds = .error .outOfRange) := by
  constructor
  · intro α r dir size f hl hs
    rw [read_list_eq, tdiv_toNat_of_neg _ _ hl hs]
    rfl
  · intro r ds hlen h1 h2 h3 h4 hneg
    show (r.jump (i32AsUsize ds.entities.offset)).read_string (i32AsUsize ds.entities.length) =
      .error .outOfRange
    rw [read_string_eq]
    have hc : ¬ ((r.jump (i32AsUsize ds.entities.offset)).marker + i32AsUsize ds.entities.length ≤
        (r.jump (i32AsUsize ds.entities.offset)).data.length) := by
      show ¬ (i32AsUsize ds.entities.offset + i32AsUsize ds.entities.length ≤ r.data.length)
      simp only [i32AsUsize]
      rcases hneg with hn | hn <;> omega
    rw [if_neg hc]

/-- Witness for C10 at concrete inputs. -/
theorem claim_C10_witness :
    ((-5 : Int) < 0 ∧ (0 : Int) < 4 ∧
      (⟨[], 7⟩ : BSPReader).read_list ⟨3, -5⟩ 4 BSPReader.read_int =
        .ok ([], ⟨[], i32AsUsize 3⟩)) ∧
    (([1, 2, 3] : List Nat).length < 2 ^ 63 ∧
      ((-1 : Int) < 0 ∨ (10 : Int) < 0) ∧
      (⟨[1, 2, 3], 0⟩ : BSPReader).read_entities { baseDirs with entities := ⟨-1, 10⟩ } =
        .error .outOfRange) :=
  ⟨⟨by decide, by decide,
      claim_C10.1 ⟨[], 7⟩ ⟨3, -5⟩ 4 BSPReader.read_int (by decide) (by decide)⟩,
    ⟨by decide, by decide,
      claim_C10.2 ⟨[1, 2, 3], 0⟩ { baseDirs with entities := ⟨-1, 10⟩ } (by decide)
        (by decide) (by decide) (by decide) (by decide) (by decide)⟩⟩

/-- C8: a fixed-record lump decode (with non-negative length and positive
record size) either fails outright or returns a complete list of exactly
`floor(length / record_size)` records — never a shorter best-effort list. -/
theorem claim_C8 {α : Type} (data : List Nat) (m : Nat) (dir : Direntry) (size : Int)
    (f : BSPReader → Except BSPError (α × BSPReader)) (h1 : 0 ≤ dir.length) (h2 : 0 < size) :
    match (⟨data, m⟩ : BSPReader).read_list dir size f with
    | .ok (l, _) => l.length = dir.length.toNat / size.toNat
    | .error _ => True := by
  rw [read_list_eq]
  cases h : readN f (dir.length.tdiv size).toNat ⟨data, i32AsUsize dir.offset⟩ with
  | error e => simp
  | ok p =>
    obtain ⟨l, r'⟩ := p
    simp only
    rw [readN_length f _ _ l r' h, tdiv_toNat_of_nonneg _ _ h1 (le_of_lt h2)]

/-- Witness for C8: decoding 8 bytes as bare int32s yields exactly 2 records. -/
theorem claim_C8_witness :
    (0 : Int) ≤ 8 ∧ (0 : Int) < 4 ∧
    (match (⟨List.replicate 8 0, 5⟩ : BSPReader).read_list ⟨0, 8⟩ 4 BSPReader.read_int with
      | .ok (l, _) => l.length = (8 : Int).toNat / (4 : Int).toNat
      | .error _ => True) :=
  ⟨by decide, by decide,
    claim_C8 (List.replicate 8 0) 5 ⟨0, 8⟩ 4 BSPReader.read_int (by decide) (by decide)⟩

/-- C3: on any buffer of at least 144 bytes whose first 4 bytes are valid
text, `read_header` succeeds and returns the magic from bytes `[0,4)`, the
version from bytes `[4,8)`, and the 17 direntries in fixed order from bytes
`[8,144)` (each two consecutive LE int32s: offset then length) — with no
validation of magic or version (the buffer is arbitrary). -/
theorem claim_C3 (data : List Nat) (h : 144 ≤ data.length)
    (hv : utf8Valid (data.take 4)) :
    (⟨data, 0⟩ : BSPReader).read_header =
      .ok ({ magic := data.take 4, version := i32At data 4,
             direntries :=
              { entities := ⟨i32At data 8, i32At data 12⟩,
                textures := ⟨i32At data 16, i32At data 20⟩,
                planes := ⟨i32At data 24, i32At data 28⟩,
                nodes := ⟨i32At data 32, i32At data 36⟩,
                leafs := ⟨i32At data 40, i32At data 44⟩,
                leaffaces := ⟨i32At data 48, i32At data 52⟩,
                leafbrushes := ⟨i32At data 56, i32At data 60⟩,
                models := ⟨i32At data 64, i32At data 68⟩,
                brushes := ⟨i32At data 72, i32At data 76⟩,
                brushsides := ⟨i32At data 80, i32At data 84⟩,
                vertexes := ⟨i32At data 88, i32At data 92⟩,
                meshverts := ⟨i32At data 96, i32At data 100⟩,
                effects := ⟨i32At data 104, i32At data 108⟩,
                faces := ⟨i32At data 112, i32At data 116⟩,
                lightmaps := ⟨i32At data 120, i32At data 124⟩,
                lightvols := ⟨i32At data 128, i32At data 132⟩,
                visdata := ⟨i32At data 136, i32At data 140⟩ } }, ⟨data, 144⟩) := by
  have hv' : utf8Valid ((data.drop 0).take 4) := by simpa using hv
  unfold BSPReader.read_header
  rw [read_string_ok ⟨data, 0⟩ 4 (show 0 + 4 ≤ data.length by omega) hv', ok_bind]
  dsimp only
  rw [read_int_ok ⟨data, 0 + 4⟩ (show 0 + 4 + 4 ≤ data.length by omega), ok_bind]
  dsimp only
  unfold BSPReader.read_direntries
  rw [read_direntry_ok ⟨data, 0 + 4 + 4⟩ (show 0 + 4 + 4 + 8 ≤ data.length by omega), ok_bind]
  dsimp only
  rw [read_direntry_ok ⟨data, 0 + 4 + 4 + 8⟩ (show 0 + 4 + 4 + 8 + 8 ≤ data.length by omega), ok_bind]
  dsimp only
  rw [read_direntry_ok ⟨data, 0 + 4 + 4 + 8 + 8⟩ (show 0 + 4 + 4 + 8 + 8 + 8 ≤ data.length by omega), ok_bind]
  dsimp only
  rw [read_direntry_ok ⟨data, 0 + 4 + 4 + 8 + 8 + 8⟩ (show 0 + 4 + 4 + 8 + 8 + 8 + 8 ≤ data.length by omega), ok_bind]
  dsimp only
  rw [read_direntry_ok ⟨data, 0 + 4 + 4 + 8 + 8 + 8 + 8⟩ (show 0 + 4 + 4 + 8 + 8 + 8 + 8 + 8 ≤ data.length by omega), ok_bind]
  dsimp only
  rw [read_direntry_ok ⟨data, 0 + 4 + 4 + 8 + 8 + 8 + 8 + 8⟩ (show 0 + 4 + 4 + 8 + 8 + 8 + 8 + 8 + 8 ≤ data.length by omega), ok_bind]
  dsimp only
  rw [read_direntry_ok ⟨data, 0 + 4 + 4 + 8 + 8 + 8 + 8 + 8 + 8⟩ (show 0 + 4 + 4 + 8 + 8 + 8 + 8 + 8 + 8 + 8 ≤ data.length by omega), ok_bind]
  dsimp only
  rw [read_direntry_ok ⟨data, 0 + 4 + 4 + 8 + 8 + 8 + 8 + 8 + 8 + 8⟩ (show 0 + 4 + 4 + 8 + 8 + 8 + 8 + 8 + 8 + 8 + 8 ≤ data.length by omega), ok_bind]
  dsimp only
  rw [read_direntry_ok ⟨data, 0 + 4 + 4 + 8 + 8 + 8 + 8 + 8 + 8 + 8 + 8⟩ (show 0 + 4 + 4 + 8 + 8 + 8 + 8 + 8 + 8 + 8 + 8 + 8 ≤ data.length by omega), ok_bind]
  dsimp only
  rw [read_direntry_ok ⟨data, 0 + 4 + 4 + 8 + 8 + 8 + 8 + 8 + 8 + 8 + 8 + 8⟩ (show 0 + 4 + 4 + 8 + 8 + 8 + 8 + 8 + 8 + 8 + 8 + 8 + 8 ≤ data.length by omega), ok_bind]
  dsimp only
  rw [read_direntry_ok ⟨data, 0 + 4 + 4 + 8 + 8 + 8 + 8 + 8 + 8 + 8 + 8 + 8 + 8⟩ (show 0 + 4 + 4 + 8 + 8 + 8 + 8 + 8 + 8 + 8 + 8 + 8 + 8 + 8 ≤ data.length by omega), ok_bind]
  dsimp only
  rw [read_direntry_ok ⟨data, 0 + 4 + 4 + 8 + 8 + 8 + 8 + 8 + 8 + 8 + 8 + 8 + 8 + 8⟩ (show 0 + 4 + 4 + 8 + 8 + 8 + 8 + 8 + 8 + 8 + 8 + 8 + 8 + 8 + 8 ≤ data.length by omega), ok_bind]
  dsimp only
  rw [read_direntry_ok ⟨data, 0 + 4 + 4 + 8 + 8 + 8 + 8 + 8 + 8 + 8 + 8 + 8 + 8 + 8 + 8⟩ (show 0 + 4 + 4 + 8 + 8 + 8 + 8 + 8 + 8 + 8 + 8 + 8 + 8 + 8 + 8 + 8 ≤ data.length by omega), ok_bind]
  dsimp only
  rw [read_direntry_ok ⟨data, 0 + 4 + 4 + 8 + 8 + 8 + 8 + 8 + 8 + 8 + 8 + 8 + 8 + 8 + 8 + 8⟩ (show 0 + 4 + 4 + 8 + 8 + 8 + 8 + 8 + 8 + 8 + 8 + 8 + 8 + 8 + 8 + 8 + 8 ≤ data.length by omega), ok_bind]
  dsimp only
  rw [read_direntry_ok ⟨data, 0 + 4 + 4 + 8 + 8 + 8 + 8 + 8 + 8 + 8 + 8 + 8 + 8 + 8 + 8 + 8 + 8⟩ (show 0 + 4 + 4 + 8 + 8 + 8 + 8 + 8 + 8 + 8 + 8 + 8 + 8 + 8 + 8 + 8 + 8 + 8 ≤ data.length by omega), ok_bind]
  dsimp only
  rw [read_direntry_ok ⟨data, 0 + 4 + 4 + 8 + 8 + 8 + 8 + 8 + 8 + 8 + 8 + 8 + 8 + 8 + 8 + 8 + 8 + 8⟩ (show 0 + 4 + 4 + 8 + 8 + 8 + 8 + 8 + 8 + 8 + 8 + 8 + 8 + 8 + 8 + 8 + 8 + 8 + 8 ≤ data.length by omega), ok_bind]
  dsimp only
  rw [read_direntry_ok ⟨data, 0 + 4 + 4 + 8 + 8 + 8 + 8 + 8 + 8 + 8 + 8 + 8 + 8 + 8 + 8 + 8 + 8 + 8 + 8⟩ (show 0 + 4 + 4 + 8 + 8 + 8 + 8 + 8 + 8 + 8 + 8 + 8 + 8 + 8 + 8 + 8 + 8 + 8 + 8 + 8 ≤ data.length by omega), ok_bind]
  dsimp only
  rfl

set_option maxRecDepth 40000 in
/-- Witness for C3 on a concrete 144-byte buffer. -/
theorem claim_C3_witness :
    144 ≤ (List.replicate 144 0 : List Nat).length ∧
    utf8Valid ((List.replicate 144 0 : List Nat).take 4) = true ∧
    (⟨List.replicate 144 0, 0⟩ : BSPReader).read_header =
      .ok ({ magic := (List.replicate 144 0 : List Nat).take 4,
             version := i32At (List.replicate 144 0) 4,
             direntries :=
              { entities := ⟨i32At (List.replicate 144 0) 8, i32At (List.replicate 144 0) 12⟩,
                textures := ⟨i32At (List.replicate 144 0) 16, i32At (List.replicate 144 0) 20⟩,
                planes := ⟨i32At (List.replicate 144 0) 24, i32At (List.replicate 144 0) 28⟩,
                nodes := ⟨i32At (List.replicate 144 0) 32, i32At (List.replicate 144 0) 36⟩,
                leafs := ⟨i32At (List.replicate 144 0) 40, i32At (List.replicate 144 0) 44⟩,
                leaffaces := ⟨i32At (List.replicate 144 0) 48, i32At (List.replicate 144 0) 52⟩,
                leafbrushes := ⟨i32At (List.replicate 144 0) 56, i32At (List.replicate 144 0) 60⟩,
                models := ⟨i32At (List.replicate 144 0) 64, i32At (List.replicate 144 0) 68⟩,
                brushes := ⟨i32At (List.replicate 144 0) 72, i32At (List.replicate 144 0) 76⟩,
                brushsides := ⟨i32At (List.replicate 144 0) 80, i32At (List.replicate 144 0) 84⟩,
                vertexes := ⟨i32At (List.replicate 144 0) 88, i32At (List.replicate 144 0) 92⟩,
                meshverts := ⟨i32At (List.replicate 144 0) 96, i32At (List.replicate 144 0) 100⟩,
                effects := ⟨i32At (List.replicate 144 0) 104, i32At (List.replicate 144 0) 108⟩,
                faces := ⟨i32At (List.replicate 144 0) 112, i32At (List.replicate 144 0) 116⟩,
                lightmaps := ⟨i32At (List.replicate 144 0) 120, i32At (List.replicate 144 0) 124⟩,
                lightvols := ⟨i32At (List.replicate 144 0) 128, i32At (List.replicate 144 0) 132⟩,
                visdata := ⟨i32At (List.replicate 144 0) 136, i32At (List.replicate 144 0) 140⟩ } },
           ⟨List.replicate 144 0, 144⟩) :=
  ⟨by decide, by decide, claim_C3 (List.replicate 144 0) (by decide) (by decide)⟩

/-- C1: `read_vertexes` computes the entry count with divisor 56 (`14 * 4`)
while each decoded record consumes 44 bytes; with a non-negative length `L`
and an in-bounds buffer it returns exactly `⌊L / 56⌋` records, the `i`-th
decoded from the 44 bytes at `offset + 44 * i`, back-to-back with no padding
skip. -/
theorem claim_C1 (data : List Nat) (m : Nat) (ds : Direntries)
    (h0 : 0 ≤ ds.vertexes.offset) (h1 : ds.vertexes.offset < 2 ^ 31)
    (h2 : 0 ≤ ds.vertexes.length)
    (h3 : ds.vertexes.offset.toNat + 44 * (ds.vertexes.length.toNat / 56) ≤ data.length) :
    (⟨data, m⟩ : BSPReader).read_vertexes ds =
      .ok ((List.range (ds.vertexes.length.toNat / 56)).map
            (fun i => vertexAt data (ds.vertexes.offset.toNat + 44 * i)),
          ⟨data, ds.vertexes.offset.toNat + 44 * (ds.vertexes.length.toNat / 56)⟩) := by
  rw [BSPReader.read_vertexes, read_list_eq]
  have hoff : i32AsUsize ds.vertexes.offset = ds.vertexes.offset.toNat := by
    simp only [i32AsUsize]
    rw [Int.emod_eq_of_lt h0 (by omega)]
  have hcount : ((ds.vertexes.length).tdiv (14 * 4)).toNat = ds.vertexes.length.toNat / 56 := by
    rw [tdiv_toNat_of_nonneg _ _ h2 (by norm_num)]
    rfl
  rw [hoff, hcount]
  exact readN_map readVertexRecord (fun p => vertexAt data p) 44 data
    (fun p hp => readVertexRecord_ok data p hp) _ _ (by omega)

/-- Witness for C1: a 112-byte vertex lump yields 2 records, read from bytes
0–43 and 44–87. -/
theorem claim_C1_witness :
    (0 : Int) ≤ 0 ∧ (0 : Int) < 2 ^ 31 ∧ (0 : Int) ≤ 112 ∧
    (0 : Int).toNat + 44 * ((112 : Int).toNat / 56) ≤ (List.replicate 100 0 : List Nat).length ∧
    (⟨List.replicate 100 0, 9⟩ : BSPReader).read_vertexes
        { baseDirs with vertexes := ⟨0, 112⟩ } =
      .ok ((List.range ((112 : Int).toNat / 56)).map
            (fun i => vertexAt (List.replicate 100 0) ((0 : Int).toNat + 44 * i)),
          ⟨List.replicate 100 0, (0 : Int).toNat + 44 * ((112 : Int).toNat / 56)⟩) :=
  ⟨by decide, by decide, by decide, by decide,
    claim_C1 (List.replicate 100 0) 9 { baseDirs with vertexes := ⟨0, 112⟩ }
      (by decide) (by decide) (by decide) (by decide)⟩

/-- C2 (divergence witness): a vertexes direntry of length 44 — exactly one
44-byte record per the documented schema — decodes to 0 records, because the
code divides by 56 instead of the schema's 44; `⌊44 / 44⌋ = 1` record was
specified. -/
theorem claim_C2_divergence :
    (⟨List.replicate 44 0, 0⟩ : BSPReader).read_vertexes
        { baseDirs with vertexes := ⟨0, 44⟩ } =
      .ok ([], ⟨List.replicate 44 0, 0⟩) ∧
    (44 : Nat) / 44 = 1 := by
  constructor
  · rfl
  · rfl

/-! ## Data preservation: no reader ever modifies the underlying buffer -/

/-- An action on the cursor never changes the buffer when it succeeds. -/
def Preserves {α : Type} (act : BSPReader → Except BSPError (α × BSPReader)) : Prop :=
  ∀ r x r', act r = .ok (x, r') → r'.data = r.data

theorem preserves_read_ubyte : Preserves BSPReader.read_ubyte := by
  intro r x r' h
  rw [read_ubyte_eq] at h
  split_ifs at h with hc
  cases h
  rfl

theorem preserves_read_string (n : Nat) : Preserves (fun r => r.read_string n) := by
  intro r x r' h
  simp only at h
  rw [read_string_eq] at h
  split_ifs at h with hc hv
  cases h
  rfl

theorem preserves_bind {α β : Type} (g : BSPReader → Except BSPError (α × BSPReader))
    (k : α × BSPReader → Except BSPError (β × BSPReader))
    (hg : Preserves g) (hk : ∀ a : α, Preserves (fun r => k (a, r))) :
    Preserves (fun r => g r >>= k) := by
  intro r x r' h
  simp only at h
  cases hgr : g r with
  | error e =>
    rw [hgr, error_bind] at h
    exact Except.noConfusion h
  | ok p =>
    obtain ⟨a, r1⟩ := p
    rw [hgr, ok_bind] at h
    rw [hk a r1 x r' h, hg r a r1 hgr]

theorem preserves_pure {α : Type} (w : α) :
    Preserves (fun r => (pure (w, r) : Except BSPError (α × BSPReader))) := by
  intro r x r' h
  cases h
  rfl

theorem preserves_read_int : Preserves BSPReader.read_int := by
  unfold BSPReader.read_int
  repeat' first
    | exact preserves_pure _
    | (apply preserves_bind _ _ preserves_read_ubyte; intro _)

theorem preserves_read_float : Preserves BSPReader.read_float := by
  unfold BSPReader.read_float
  repeat' first
    | exact preserves_pure _
    | (apply preserves_bind _ _ preserves_read_ubyte; intro _)

theorem preserves_record {α : Type} (act : BSPReader → Except BSPError (α × BSPReader)) :
    Preserves act → Preserves act := id

theorem preserves_texture_record : Preserves readTextureRecord := by
  unfold readTextureRecord
  repeat' first
    | exact preserves_pure _
    | (apply preserves_bind _ _ (preserves_read_string 64); intro _)
    | (apply preserves_bind _ _ preserves_read_int; intro _)

theorem preserves_plane_record : Preserves readPlaneRecord := by
  unfold readPlaneRecord
  repeat' first
    | exact preserves_pure _
    | (apply preserves_bind _ _ preserves_read_float; intro _)

theorem preserves_node_record : Preserves readNodeRecord := by
  unfold readNodeRecord
  repeat' first
    | exact preserves_pure _
    | (apply preserves_bind _ _ preserves_read_int; intro _)

theorem preserves_leaf_record : Preserves readLeafRecord := by
  unfold readLeafRecord
  repeat' first
    | exact preserves_pure _
    | (apply preserves_bind _ _ preserves_read_int; intro _)

theorem preserves_model_record : Preserves readModelRecord := by
  unfold readModelRecord
  repeat' first
    | exact preserves_pure _
    | (apply preserves_bind _ _ preserves_read_int; intro _)
    | (apply preserves_bind _ _ preserves_read_float; intro _)

theorem preserves_brush_record : Preserves readBrushRecord := by
  unfold readBrushRecord
  repeat' first
    | exact preserves_pure _
    | (apply preserves_bind _ _ preserves_read_int; intro _)

theorem preserves_brushside_record : Preserves readBrushsideRecord := by
  unfold readBrushsideRecord
  repeat' first
    | exact preserves_pure _
    | (apply preserves_bind _ _ preserves_read_int; intro _)

theorem preserves_vertex_record : Preserves readVertexRecord := by
  unfold readVertexRecord
  repeat' first
    | exact preserves_pure _
    | (apply preserves_bind _ _ preserves_read_float; intro _)
    | (apply preserves_bind _ _ preserves_read_ubyte; intro _)

theorem preserves_effect_record : Preserves readEffectRecord := by
  unfold readEffectRecord
  repeat' first
    | exact preserves_pure _
    | (apply preserves_bind _ _ (preserves_read_string 64); intro _)
    | (apply preserves_bind _ _ preserves_read_int; intro _)

theorem preserves_face_record : Preserves readFaceRecord := by
  unfold readFaceRecord
  repeat' first
    | exact preserves_pure _
    | (apply preserves_bind _ _ preserves_read_int; intro _)
    | (apply preserves_bind _ _ preserves_read_float; intro _)

theorem preserves_readN {α : Type} (f : BSPReader → Except BSPError (α × BSPReader))
    (hf : Preserves f) : ∀ n, Preserves (readN f n) := by
  intro n
  induction n with
  | zero =>
    intro r x r' h
    cases h
    rfl
  | succ n ih =>
    intro r x r' h
    simp only [readN] at h
    cases hfr : f r with
    | error e =>
      rw [hfr, error_bind] at h
      exact Except.noConfusion h
    | ok p =>
      obtain ⟨a, r1⟩ := p
      rw [hfr, ok_bind] at h
      simp only at h
      cases hN : readN f n r1 with
      | error e =>
        rw [hN, error_bind] at h
        exact Except.noConfusion h
      | ok q =>
        obtain ⟨xs, r2⟩ := q
        rw [hN, ok_bind] at h
        rw [pure_eq_ok] at h
        cases h
        rw [ih r1 xs r2 hN, hf r a r1 hfr]

theorem preserves_read_list {α : Type} (dir : Direntry) (size : Int)
    (f : BSPReader → Except BSPError (α × BSPReader)) (hf : Preserves f) :
    ∀ (r : BSPReader) (l : List α) (r' : BSPReader),
      r.read_list dir size f = .ok (l, r') → r'.data = r.data := by
  intro r l r' h
  rw [read_list_eq] at h
  exact preserves_readN f hf ((dir.length.tdiv size).toNat)
    ⟨r.data, i32AsUsize dir.offset⟩ l r' h

/-- The decode result either failed, or carries back a cursor whose buffer
is exactly `d`. -/
def OkDataEq {α : Type} (act : Except BSPError (α × BSPReader)) (d : List Nat) : Prop :=
  match act with
  | .ok (_, r') => r'.data = d
  | .error _ => True

theorem okDataEq_read_list {α : Type} (data : List Nat) (m : Nat) (dir : Direntry)
    (size : Int) (f : BSPReader → Except BSPError (α × BSPReader)) (hf : Preserves f) :
    OkDataEq ((⟨data, m⟩ : BSPReader).read_list dir size f) data := by
  unfold OkDataEq
  cases h : (⟨data, m⟩ : BSPReader).read_list dir size f with
  | error e => trivial
  | ok p =>
    obtain ⟨l, r'⟩ := p
    exact preserves_read_list dir size f hf ⟨data, m⟩ l r' h

/-- C5: every lump-reading operation `read_X(direntries)` depends only on the
buffer contents and the given direntries, not on the marker at call time
(each call first jumps to its own lump offset), and on success the buffer in
the returned cursor is unchanged; together these give idempotence and
order-independence of the `read_X` calls on a fixed buffer. -/
theorem claim_C5 (data : List Nat) (m m' : Nat) (ds : Direntries) :
    ((⟨data, m⟩ : BSPReader).read_entities ds = (⟨data, m'⟩ : BSPReader).read_entities ds ∧
     (⟨data, m⟩ : BSPReader).read_textures ds = (⟨data, m'⟩ : BSPReader).read_textures ds ∧
     (⟨data, m⟩ : BSPReader).read_planes ds = (⟨data, m'⟩ : BSPReader).read_planes ds ∧
     (⟨data, m⟩ : BSPReader).read_nodes ds = (⟨data, m'⟩ : BSPReader).read_nodes ds ∧
     (⟨data, m⟩ : BSPReader).read_leafs ds = (⟨data, m'⟩ : BSPReader).read_leafs ds ∧
     (⟨data, m⟩ : BSPReader).read_leaffaces ds = (⟨data, m'⟩ : BSPReader).read_leaffaces ds ∧
     (⟨data, m⟩ : BSPReader).read_leafbrushes ds =
       (⟨data, m'⟩ : BSPReader).read_leafbrushes ds ∧
     (⟨data, m⟩ : BSPReader).read_models ds = (⟨data, m'⟩ : BSPReader).read_models ds ∧
     (⟨data, m⟩ : BSPReader).read_brushes ds = (⟨data, m'⟩ : BSPReader).read_brushes ds ∧
     (⟨data, m⟩ : BSPReader).read_brushsides ds =
       (⟨data, m'⟩ : BSPReader).read_brushsides ds ∧
     (⟨data, m⟩ : BSPReader).read_vertexes ds = (⟨data, m'⟩ : BSPReader).read_vertexes ds ∧
     (⟨data, m⟩ : BSPReader).read_meshverts ds = (⟨data, m'⟩ : BSPReader).read_meshverts ds ∧
     (⟨data, m⟩ : BSPReader).read_effects ds = (⟨data, m'⟩ : BSPReader).read_effects ds ∧
     (⟨data, m⟩ : BSPReader).read_faces ds = (⟨data, m'⟩ : BSPReader).read_faces ds) ∧
    (OkDataEq ((⟨data, m⟩ : BSPReader).read_entities ds) data ∧
     OkDataEq ((⟨data, m⟩ : BSPReader).read_textures ds) data ∧
     OkDataEq ((⟨data, m⟩ : BSPReader).read_planes ds) data ∧
     OkDataEq ((⟨data, m⟩ : BSPReader).read_nodes ds) data ∧
     OkDataEq ((⟨data, m⟩ : BSPReader).read_leafs ds) data ∧
     OkDataEq ((⟨data, m⟩ : BSPReader).read_leaffaces ds) data ∧
     OkDataEq ((⟨data, m⟩ : BSPReader).read_leafbrushes ds) data ∧
     OkDataEq ((⟨data, m⟩ : BSPReader).read_models ds) data ∧
     OkDataEq ((⟨data, m⟩ : BSPReader).read_brushes ds) data ∧
     OkDataEq ((⟨data, m⟩ : BSPReader).read_brushsides ds) data ∧
     OkDataEq ((⟨data, m⟩ : BSPReader).read_vertexes ds) data ∧
     OkDataEq ((⟨data, m⟩ : BSPReader).read_meshverts ds) data ∧
     OkDataEq ((⟨data, m⟩ : BSPReader).read_effects ds) data ∧
     OkDataEq ((⟨data, m⟩ : BSPReader).read_faces ds) data) := by
  have hent : OkDataEq ((⟨data, m⟩ : BSPReader).read_entities ds) data := by
    unfold OkDataEq
    cases h : (⟨data, m⟩ : BSPReader).read_entities ds with
    | error e => trivial
    | ok p =>
      obtain ⟨sxx, r'⟩ := p
      exact preserves_read_string (i32AsUsize ds.entities.length)
        ⟨data, i32AsUsize ds.entities.offset⟩ sxx r' h
  refine ⟨⟨rfl, rfl, rfl, rfl, rfl, rfl, rfl, rfl, rfl, rfl, rfl, rfl, rfl, rfl⟩,
    hent, ?_, ?_, ?_, ?_, ?_, ?_, ?_, ?_, ?_, ?_, ?_, ?_, ?_⟩
  · exact okDataEq_read_list data m ds.textures (64 + 4 + 4) readTextureRecord
      preserves_texture_record
  · exact okDataEq_read_list data m ds.planes (3 * 4 + 4) readPlaneRecord
      preserves_plane_record
  · exact okDataEq_read_list data m ds.nodes (4 + 2 * 4 + 3 * 4 + 3 * 4) readNodeRecord
      preserves_node_record
  · exact okDataEq_read_list data m ds.leafs (12 * 4) readLeafRecord preserves_leaf_record
  · exact okDataEq_read_list data m ds.leaffaces 4 BSPReader.read_int preserves_read_int
  · exact okDataEq_read_list data m ds.leafbrushes 4 BSPReader.read_int preserves_read_int
  · exact okDataEq_read_list data m ds.models (10 * 4) readModelRecord preserves_model_record
  · exact okDataEq_read_list data m ds.brushes (3 * 4) readBrushRecord preserves_brush_record
  · exact okDataEq_read_list data m ds.brushsides (2 * 4) readBrushsideRecord
      preserves_brushside_record
  · exact okDataEq_read_list data m ds.vertexes (14 * 4) readVertexRecord
      preserves_vertex_record
  · exact okDataEq_read_list data m ds.meshverts 4 BSPReader.read_int preserves_read_int
  · exact okDataEq_read_list data m ds.effects (64 + 2 * 4) readEffectRecord
      preserves_effect_record
  · exact okDataEq_read_list data m ds.faces (26 * 4) readFaceRecord preserves_face_record

/-- C6: for every record of each §3 schema with fields in their documented
ranges, encoding the fields to the documented little-endian byte layout in
the documented order and decoding with the corresponding record decoder
reproduces the record exactly (negative int32 values and arbitrary — also
non-integer — float32 bit patterns included). -/
theorem claim_C6 :
    (∀ t : Texture, validTexture t →
      readTextureRecord ⟨encodeTexture t, 0⟩ = .ok (t, ⟨encodeTexture t, 72⟩)) ∧
    (∀ p : Plane, validPlane p →
      readPlaneRecord ⟨encodePlane p, 0⟩ = .ok (p, ⟨encodePlane p, 16⟩)) ∧
    (∀ n : Node, validNode n →
      readNodeRecord ⟨encodeNode n, 0⟩ = .ok (n, ⟨encodeNode n, 36⟩)) ∧
    (∀ l : Leaf, validLeaf l →
      readLeafRecord ⟨encodeLeaf l, 0⟩ = .ok (l, ⟨encodeLeaf l, 48⟩)) ∧
    (∀ mo : Model, validModel mo →
      readModelRecord ⟨encodeModel mo, 0⟩ = .ok (mo, ⟨encodeModel mo, 40⟩)) ∧
    (∀ b : Brush, validBrush b →
      readBrushRecord ⟨encodeBrush b, 0⟩ = .ok (b, ⟨encodeBrush b, 12⟩)) ∧
    (∀ b : Brushside, validBrushside b →
      readBrushsideRecord ⟨encodeBrushside b, 0⟩ = .ok (b, ⟨encodeBrushside b, 8⟩)) ∧
    (∀ v : Vertex, validVertex v →
      readVertexRecord ⟨encodeVertex v, 0⟩ = .ok (v, ⟨encodeVertex v, 44⟩)) ∧
    (∀ e : Effect, validEffect e →
      readEffectRecord ⟨encodeEffect e, 0⟩ = .ok (e, ⟨encodeEffect e, 72⟩)) ∧
    (∀ f : Face, validFace f →
      readFaceRecord ⟨encodeFace f, 0⟩ = .ok (f, ⟨encodeFace f, 104⟩)) ∧
    (∀ x : Int, isI32 x → BSPReader.read_int ⟨encI32 x, 0⟩ = .ok (x, ⟨encI32 x, 4⟩)) :=
  ⟨textureEnc_rt, planeEnc_rt, nodeEnc_rt, leafEnc_rt, modelEnc_rt, brushEnc_rt,
    brushsideEnc_rt, vertexEnc_rt, effectEnc_rt, faceEnc_rt, intEnc_rt⟩

set_option maxRecDepth 40000 in
/-- Witness for C6: one concrete record per schema, with negative int32s and
a non-integer float32 pattern (`0x3FC00000`, i.e. `1.5f`). -/
theorem claim_C6_witness :
    (validTexture ⟨q3dm0Name, -7, 5⟩ ∧
      readTextureRecord ⟨encodeTexture ⟨q3dm0Name, -7, 5⟩, 0⟩ =
        .ok (⟨q3dm0Name, -7, 5⟩, ⟨encodeTexture ⟨q3dm0Name, -7, 5⟩, 72⟩)) ∧
    (validPlane ⟨(1069547520, 0, 3217031168), 1123942400⟩ ∧
      readPlaneRecord ⟨encodePlane ⟨(1069547520, 0, 3217031168), 1123942400⟩, 0⟩ =
        .ok (⟨(1069547520, 0, 3217031168), 1123942400⟩,
          ⟨encodePlane ⟨(1069547520, 0, 3217031168), 1123942400⟩, 16⟩)) ∧
    (validNode ⟨-1, (2, -3), (-4, 5, -6), (7, -8, 9)⟩ ∧
      readNodeRecord ⟨encodeNode ⟨-1, (2, -3), (-4, 5, -6), (7, -8, 9)⟩, 0⟩ =
        .ok (⟨-1, (2, -3), (-4, 5, -6), (7, -8, 9)⟩,
          ⟨encodeNode ⟨-1, (2, -3), (-4, 5, -6), (7, -8, 9)⟩, 36⟩)) ∧
    (validLeaf ⟨-1, 2, (-3, 4, -5), (6, -7, 8), 9, 10, 11, 12⟩ ∧
      readLeafRecord ⟨encodeLeaf ⟨-1, 2, (-3, 4, -5), (6, -7, 8), 9, 10, 11, 12⟩, 0⟩ =
        .ok (⟨-1, 2, (-3, 4, -5), (6, -7, 8), 9, 10, 11, 12⟩,
          ⟨encodeLeaf ⟨-1, 2, (-3, 4, -5), (6, -7, 8), 9, 10, 11, 12⟩, 48⟩)) ∧
    (validModel ⟨(1, 2, 3), (4, 5, 6), -7, 8, -9, 10⟩ ∧
      readModelRecord ⟨encodeModel ⟨(1, 2, 3), (4, 5, 6), -7, 8, -9, 10⟩, 0⟩ =
        .ok (⟨(1, 2, 3), (4, 5, 6), -7, 8, -9, 10⟩,
          ⟨encodeModel ⟨(1, 2, 3), (4, 5, 6), -7, 8, -9, 10⟩, 40⟩)) ∧
    (validBrush ⟨-1, 2, -3⟩ ∧
      readBrushRecord ⟨encodeBrush ⟨-1, 2, -3⟩, 0⟩ =
        .ok (⟨-1, 2, -3⟩, ⟨encodeBrush ⟨-1, 2, -3⟩, 12⟩)) ∧
    (validBrushside ⟨-5, 6⟩ ∧
      readBrushsideRecord ⟨encodeBrushside ⟨-5, 6⟩, 0⟩ =
        .ok (⟨-5, 6⟩, ⟨encodeBrushside ⟨-5, 6⟩, 8⟩)) ∧
    (validVertex ⟨(1069547520, 2, 3), ((4, 5), (6, 7)), (8, 9, 10), (255, 0, 128, 7)⟩ ∧
      readVertexRecord
          ⟨encodeVertex ⟨(1069547520, 2, 3), ((4, 5), (6, 7)), (8, 9, 10), (255, 0, 128, 7)⟩,
            0⟩ =
        .ok (⟨(1069547520, 2, 3), ((4, 5), (6, 7)), (8, 9, 10), (255, 0, 128, 7)⟩,
          ⟨encodeVertex ⟨(1069547520, 2, 3), ((4, 5), (6, 7)), (8, 9, 10), (255, 0, 128, 7)⟩,
            44⟩)) ∧
    (validEffect ⟨q3dm0Name, -11, 12⟩ ∧
      readEffectRecord ⟨encodeEffect ⟨q3dm0Name, -11, 12⟩, 0⟩ =
        .ok (⟨q3dm0Name, -11, 12⟩, ⟨encodeEffect ⟨q3dm0Name, -11, 12⟩, 72⟩)) ∧
    (validFace ⟨-1, -2, 3, 4, 5, 6, 7, 8, (9, 10), (11, 12), (13, 14, 15),
        ((16, 17, 18), (19, 20, 21)), (22, 23, 24), (-25, 26)⟩ ∧
      readFaceRecord ⟨encodeFace ⟨-1, -2, 3, 4, 5, 6, 7, 8, (9, 10), (11, 12), (13, 14, 15),
          ((16, 17, 18), (19, 20, 21)), (22, 23, 24), (-25, 26)⟩, 0⟩ =
        .ok (⟨-1, -2, 3, 4, 5, 6, 7, 8, (9, 10), (11, 12), (13, 14, 15),
            ((16, 17, 18), (19, 20, 21)), (22, 23, 24), (-25, 26)⟩,
          ⟨encodeFace ⟨-1, -2, 3, 4, 5, 6, 7, 8, (9, 10), (11, 12), (13, 14, 15),
            ((16, 17, 18), (19, 20, 21)), (22, 23, 24), (-25, 26)⟩, 104⟩)) ∧
    (isI32 (-230857096) ∧
      BSPReader.read_int ⟨encI32 (-230857096), 0⟩ =
        .ok (-230857096, ⟨encI32 (-230857096), 4⟩)) :=
  ⟨⟨by decide, claim_C6.1 _ (by decide)⟩,
  ⟨by decide, claim_C6.2.1 _ (by decide)⟩,
  ⟨by decide, claim_C6.2.2.1 _ (by decide)⟩,
  ⟨by decide, claim_C6.2.2.2.1 _ (by decide)⟩,
  ⟨by decide, claim_C6.2.2.2.2.1 _ (by decide)⟩,
  ⟨by decide, claim_C6.2.2.2.2.2.1 _ (by decide)⟩,
  ⟨by decide, claim_C6.2.2.2.2.2.2.1 _ (by decide)⟩,
  ⟨by decide, claim_C6.2.2.2.2.2.2.2.1 _ (by decide)⟩,
  ⟨by decide, claim_C6.2.2.2.2.2.2.2.2.1 _ (by decide)⟩,
  ⟨by decide, claim_C6.2.2.2.2.2.2.2.2.2.1 _ (by decide)⟩,
  ⟨by decide, claim_C6.2.2.2.2.2.2.2.2.2.2 _ (by decide)⟩⟩

end Guac
